import Mathlib

/-!
Verification of the preset-generation pipeline of choral-v2.

The repository consists of two Python scripts,
`scripts/generate_gender_presets.py` and `scripts/additional_presets.py`.
Each defines a builder `create_preset` producing a nested dictionary
(metadata / parameters / provenance flags), a writer `save_preset` that
derives a filename from the preset's display name and serializes the
dictionary with `json.dump(..., indent=2)`, and literal catalog lists of
presets.

This file gives a shallow embedding:
 * `Choral.Json` models Python dictionaries/lists/scalars as produced by the
   builders (a Python `dict` preserves insertion order, so an ordered
   association list is the faithful image).
 * `Choral.JNum` keeps the Python `int` / `float` distinction; a float is
   recorded as an exact decimal `m / 10^e`, which is how every float literal
   of the scripts (and its `repr` used by `json.dump`) denotes.
 * The ambient wall clock (`datetime.now().isoformat()`) is modelled as an
   explicit stream `clock : Nat → String` with a read counter: the builder
   performs two successive reads.
 * `json.dump(..., indent=2)` / `json.loads` are modelled by an executable
   printer and parser over the escape-free ASCII fragment of JSON that the
   generated artifacts inhabit.
-/

namespace Choral

/-- A Python number as stored in the preset dictionaries: either an `int`,
or a `float` whose literal (and `repr`) is the exact decimal `m / 10^e`
with `e` digits after the point. -/
inductive JNum where
  | int (n : Int)
  | float (m : Int) (e : Nat)
deriving DecidableEq, Repr

/-- The rational value a `JNum` denotes; Python's `==` on numbers compares
these values (so `70 == 70.0` holds). -/
def JNum.toRat : JNum → ℚ
  | .int n => (n : ℚ)
  | .float m e => (m : ℚ) / (10 : ℚ) ^ e

/-- A Python value of the shapes the generator builds: strings, numbers,
booleans, lists, and insertion-ordered dictionaries. -/
inductive Json where
  | str (s : String)
  | num (v : JNum)
  | bool (b : Bool)
  | arr (xs : List Json)
  | obj (fs : List (String × Json))

/-- Dictionary lookup (`d[k]` when it succeeds, `None`-flavoured otherwise). -/
def Json.getObj : Json → String → Option Json
  | .obj fs, k => fs.lookup k
  | _, _ => none

/-- The key list of a dictionary, in insertion order. -/
def Json.keys : Json → List String
  | .obj fs => fs.map Prod.fst
  | _ => []

/-- The opening brace character. -/
def lcurly : Char := Char.ofNat 123

/-- The closing brace character. -/
def rcurly : Char := Char.ofNat 125

namespace GenderPresets

/-- The argument record of `create_preset` in `generate_gender_presets.py`
(lines 11-17), with the source's default values.  Optional `None`-defaulted
arguments are `Option`s. -/
structure Args where
  name : String
  description : String
  language : String
  synthesis_method : String
  lyrics : String
  num_voices : JNum := .int 8
  formant_mix : JNum := .int 80
  subharmonic_mix : JNum := .int 20
  stereo_width : JNum := .int 75
  vibrato_rate : JNum := .float 60 1
  vibrato_depth : JNum := .float 300 1
  reverb_mix : JNum := .int 25
  reverb_size : JNum := .int 50
  attack : JNum := .int 50
  release : JNum := .int 200
  pitch_variation : JNum := .int 10
  timing_variation : JNum := .int 5
  formant_variation : JNum := .int 15
  breathiness : JNum := .int 10
  warmth : JNum := .int 20
  brightness : JNum := .int 50
  gender_balance : Option (List (String × JNum)) := none
  voice_types : Option (List (String × JNum)) := none
  tags : Option (List String) := none

end GenderPresets

/-- Python truthiness of an optional dictionary argument: `if d:` is false
both for `None` and for an empty dict. -/
def truthy : Option (List α) → Bool
  | none => false
  | some [] => false
  | some (_ :: _) => true

/-- A string-to-number mapping rendered as the dictionary value it is. -/
def distToJson (m : List (String × JNum)) : Json :=
  .obj (m.map (fun kv => (kv.1, Json.num kv.2)))

namespace GenderPresets

/-- `create_preset` of `generate_gender_presets.py` (lines 11-69).  The two
`datetime.now().isoformat()` reads are the two successive clock reads
`clock t` and `clock (t+1)` (dict literals evaluate their values in order).
`gender_balance` is appended first and `voice_types` second (lines 61-67),
each only when truthy. -/
def create_preset (a : Args) (clock : Nat → String) (t : Nat) : Json :=
  .obj [
    ("metadata", .obj [
      ("name", .str a.name),
      ("author", .str "Bret Bouchard"),
      ("description", .str a.description),
      ("version", .str "2.0.0"),
      ("category", .str "Gender"),
      ("tags", .arr ((a.tags.getD []).map Json.str)),
      ("created_date", .str (clock t)),
      ("modified_date", .str (clock (t+1))),
      ("plugin_version", .str "2.0.0")
    ]),
    ("parameters", .obj (
      [("num_voices", .num a.num_voices),
       ("master_gain", .num (.float (-30) 1)),
       ("language", .str a.language),
       ("lyrics", .str a.lyrics),
       ("synthesis_method", .str a.synthesis_method),
       ("formant_mix", .num a.formant_mix),
       ("subharmonic_mix", .num a.subharmonic_mix),
       ("stereo_width", .num a.stereo_width),
       ("vibrato_rate", .num a.vibrato_rate),
       ("vibrato_depth", .num a.vibrato_depth),
       ("reverb_mix", .num a.reverb_mix),
       ("reverb_size", .num a.reverb_size),
       ("attack_time", .num a.attack),
       ("release_time", .num a.release),
       ("enable_anti_aliasing", .bool true),
       ("enable_spectral_enhancement", .bool true),
       ("oversampling_factor", .num (.float 10 1)),
       ("pitch_variation", .num a.pitch_variation),
       ("timing_variation", .num a.timing_variation),
       ("formant_variation", .num a.formant_variation),
       ("breathiness", .num a.breathiness),
       ("warmth", .num a.warmth),
       ("brightness", .num a.brightness)]
      ++ (if truthy a.gender_balance
          then [("gender_balance", distToJson (a.gender_balance.getD []))] else [])
      ++ (if truthy a.voice_types
          then [("voice_types", distToJson (a.voice_types.getD []))] else []))),
    ("is_factory", .bool true),
    ("is_read_only", .bool true)
  ]

end GenderPresets

namespace AdditionalPresets

/-- The argument record of `create_preset` in `additional_presets.py`
(lines 10-15): the same schema and defaults, but no `gender_balance` /
`voice_types` arguments. -/
structure Args where
  name : String
  description : String
  language : String
  synthesis_method : String
  lyrics : String
  num_voices : JNum := .int 8
  formant_mix : JNum := .int 80
  subharmonic_mix : JNum := .int 20
  stereo_width : JNum := .int 75
  vibrato_rate : JNum := .float 60 1
  vibrato_depth : JNum := .float 300 1
  reverb_mix : JNum := .int 25
  reverb_size : JNum := .int 50
  attack : JNum := .int 50
  release : JNum := .int 200
  pitch_variation : JNum := .int 10
  timing_variation : JNum := .int 5
  formant_variation : JNum := .int 15
  breathiness : JNum := .int 10
  warmth : JNum := .int 20
  brightness : JNum := .int 50
  tags : Option (List String) := none

/-- `create_preset` of `additional_presets.py` (lines 10-58): identical to
the gender script's builder except `category` is `"Factory"` and there is
no optional-map handling. -/
def create_preset (a : Args) (clock : Nat → String) (t : Nat) : Json :=
  .obj [
    ("metadata", .obj [
      ("name", .str a.name),
      ("author", .str "Bret Bouchard"),
      ("description", .str a.description),
      ("version", .str "2.0.0"),
      ("category", .str "Factory"),
      ("tags", .arr ((a.tags.getD []).map Json.str)),
      ("created_date", .str (clock t)),
      ("modified_date", .str (clock (t+1))),
      ("plugin_version", .str "2.0.0")
    ]),
    ("parameters", .obj
      [("num_voices", .num a.num_voices),
       ("master_gain", .num (.float (-30) 1)),
       ("language", .str a.language),
       ("lyrics", .str a.lyrics),
       ("synthesis_method", .str a.synthesis_method),
       ("formant_mix", .num a.formant_mix),
       ("subharmonic_mix", .num a.subharmonic_mix),
       ("stereo_width", .num a.stereo_width),
       ("vibrato_rate", .num a.vibrato_rate),
       ("vibrato_depth", .num a.vibrato_depth),
       ("reverb_mix", .num a.reverb_mix),
       ("reverb_size", .num a.reverb_size),
       ("attack_time", .num a.attack),
       ("release_time", .num a.release),
       ("enable_anti_aliasing", .bool true),
       ("enable_spectral_enhancement", .bool true),
       ("oversampling_factor", .num (.float 10 1)),
       ("pitch_variation", .num a.pitch_variation),
       ("timing_variation", .num a.timing_variation),
       ("formant_variation", .num a.formant_variation),
       ("breathiness", .num a.breathiness),
       ("warmth", .num a.warmth),
       ("brightness", .num a.brightness)]),
    ("is_factory", .bool true),
    ("is_read_only", .bool true)
  ]

end AdditionalPresets

/-- Python's `name.replace(old, new)` for a one-character pattern and a
one-character replacement is the character-wise map. -/
def pyReplace (s : String) (old new : Char) : String :=
  ⟨s.data.map (fun c => if c = old then new else c)⟩

/-- The name-sanitizing step of both writers (line 73 resp. 62):
`name.replace(' ', '_').replace('/', '_')`. -/
def sanitizeName (n : String) : String :=
  pyReplace (pyReplace n ' ' '_') '/' '_'

/-- The digit character of `d < 10`. -/
def digitCh (d : Nat) : Char := Char.ofNat (48 + d)

/-- Worker for `natChars`, structural on a fuel bound. -/
def natCharsGo : Nat → Nat → List Char → List Char
  | 0, _, acc => acc
  | fuel + 1, n, acc =>
      if n < 10 then digitCh n :: acc
      else natCharsGo fuel (n / 10) (digitCh (n % 10) :: acc)

/-- The decimal digit characters of `n`, most significant first. -/
def natChars (n : Nat) : List Char := natCharsGo (n + 1) n []

/-- Python `repr` of an int: an optional minus sign, then the digits. -/
def intChars (i : Int) : List Char :=
  (if i < 0 then ['-'] else []) ++ natChars i.natAbs

/-- Python `repr` of the float `m / 10^e`: the digits of `|m|`, left-padded
with zeros to at least `e + 1` digits, with the decimal point inserted `e`
digits from the right, and a minus sign when `m < 0`. -/
def floatChars (m : Int) (e : Nat) : List Char :=
  let ds := List.replicate (e + 1 - (natChars m.natAbs).length) '0' ++ natChars m.natAbs
  (if m < 0 then ['-'] else []) ++ ds.take (ds.length - e) ++ '.' :: ds.drop (ds.length - e)

/-- How `json.dump` renders a number. -/
def numChars : JNum → List Char
  | .int n => intChars n
  | .float m e => floatChars m e

/-- A JSON string literal of the escape-free fragment: the characters
between double quotes, verbatim. -/
def quoteChars (s : String) : List Char := '"' :: (s.data ++ ['"'])

/-- `n` spaces of indentation. -/
def pad (n : Nat) : List Char := List.replicate n ' '

mutual

/-- The text `json.dump(value, indent=2)` produces for a value whose
closing bracket sits at indentation `ind` (children indent by two more). -/
def dumpVal : Nat → Json → List Char
  | _, .str s => quoteChars s
  | _, .num v => numChars v
  | _, .bool true => ['t', 'r', 'u', 'e']
  | _, .bool false => ['f', 'a', 'l', 's', 'e']
  | _, .arr [] => ['[', ']']
  | ind, .arr (x :: xs) =>
      '[' :: '\n' :: (dumpItems (ind + 2) x xs ++ '\n' :: (pad ind ++ [']']))
  | _, .obj [] => [lcurly, rcurly]
  | ind, .obj (f :: fs) =>
      lcurly :: '\n' :: (dumpFields (ind + 2) f fs ++ '\n' :: (pad ind ++ [rcurly]))
termination_by _ j => sizeOf j

/-- The comma/newline-separated item lines of a nonempty list, each line
indented by `ind`. -/
def dumpItems : Nat → Json → List Json → List Char
  | ind, x, [] => pad ind ++ dumpVal ind x
  | ind, x, y :: ys => pad ind ++ dumpVal ind x ++ ',' :: '\n' :: dumpItems ind y ys
termination_by _ x xs => sizeOf x + sizeOf xs

/-- The member lines of a nonempty dictionary: quoted key, colon, space,
value; comma/newline separated. -/
def dumpFields : Nat → (String × Json) → List (String × Json) → List Char
  | ind, (k, v), [] => pad ind ++ quoteChars k ++ ':' :: ' ' :: dumpVal ind v
  | ind, (k, v), f :: fs =>
      pad ind ++ quoteChars k ++ ':' :: ' ' :: dumpVal ind v ++ ',' :: '\n' :: dumpFields ind f fs
termination_by _ f fs => sizeOf f + sizeOf fs

end

/-- The content `json.dump(preset, f, indent=2)` writes. -/
def json_dumps (j : Json) : String := ⟨dumpVal 0 j⟩

/-- Is `c` a decimal digit? -/
def isDigitCh (c : Char) : Bool := 48 ≤ c.toNat && c.toNat ≤ 57

/-- The whitespace the indent-2 printer emits. -/
def isSpaceCh (c : Char) : Bool := c = ' ' || c = '\n'

/-- Drop leading whitespace. -/
def skipSpace : List Char → List Char
  | c :: cs => if isSpaceCh c then skipSpace cs else c :: cs
  | [] => []

/-- Read the body of a string literal up to the closing quote
(the escape-free fragment: characters are taken verbatim). -/
def readStrBody : List Char → Option (List Char × List Char)
  | [] => none
  | c :: cs =>
      if c = '"' then some ([], cs)
      else
        match readStrBody cs with
        | some (body, rest) => some (c :: body, rest)
        | none => none

/-- The longest digit run at the head of the input, and the remainder. -/
def readDigits : List Char → List Char × List Char
  | c :: cs =>
      if isDigitCh c then
        ((readDigits cs).1.cons c, (readDigits cs).2)
      else ([], c :: cs)
  | [] => ([], [])

/-- The natural number a digit run denotes. -/
def digitsVal (ds : List Char) : Nat :=
  ds.foldl (fun acc c => 10 * acc + (c.toNat - 48)) 0

/-- Negation of a parsed number (the effect of a leading minus sign). -/
def negNum : JNum → JNum
  | .int n => .int (-n)
  | .float m e => .float (-m) e

/-- An unsigned number of the generated fragment: an integer digit run,
optionally followed by a point and a nonempty fractional digit run; the
int/float distinction mirrors Python's. -/
def parsePosNum (cs : List Char) : Option (JNum × List Char) :=
  match readDigits cs with
  | ([], _) => none
  | (ds1, '.' :: r2) =>
      match readDigits r2 with
      | ([], _) => none
      | (ds2, r3) =>
          some (.float ((digitsVal ds1 * 10 ^ ds2.length + digitsVal ds2 : Nat) : Int)
                  ds2.length, r3)
  | (ds1, r1) => some (.int (digitsVal ds1), r1)

/-- A number, with an optional leading minus sign. -/
def parseNum : List Char → Option (JNum × List Char)
  | '-' :: cs =>
      match parsePosNum cs with
      | some (v, r) => some (negNum v, r)
      | none => none
  | cs => parsePosNum cs

mutual

/-- The recursive-descent reader of a value, structural on a fuel bound
(`json.loads` restricted to the fragment the printer emits). -/
def parseVal : Nat → List Char → Option (Json × List Char)
  | 0, _ => none
  | fuel + 1, cs =>
      match skipSpace cs with
      | [] => none
      | c :: r =>
          if c = '"' then
            match readStrBody r with
            | some (body, rest) => some (.str ⟨body⟩, rest)
            | none => none
          else if c = '[' then
            match skipSpace r with
            | d :: r2 =>
                if d = ']' then some (.arr [], r2)
                else
                  match parseItems fuel (d :: r2) with
                  | some (xs, r3) => some (.arr xs, r3)
                  | none => none
            | [] => none
          else if c = lcurly then
            match skipSpace r with
            | d :: r2 =>
                if d = rcurly then some (.obj [], r2)
                else
                  match parseFields fuel (d :: r2) with
                  | some (fs, r3) => some (.obj fs, r3)
                  | none => none
            | [] => none
          else if c = 't' then
            match r with
            | 'r' :: 'u' :: 'e' :: r2 => some (.bool true, r2)
            | _ => none
          else if c = 'f' then
            match r with
            | 'a' :: 'l' :: 's' :: 'e' :: r2 => some (.bool false, r2)
            | _ => none
          else if c = '-' || isDigitCh c then
            match parseNum (c :: r) with
            | some (v, r2) => some (.num v, r2)
            | none => none
          else none

/-- One-or-more comma-separated array items, ended by a closing bracket. -/
def parseItems : Nat → List Char → Option (List Json × List Char)
  | 0, _ => none
  | fuel + 1, cs =>
      match parseVal fuel cs with
      | some (v, r) =>
          (match skipSpace r with
           | ',' :: r2 =>
               match parseItems fuel r2 with
               | some (vs, r3) => some (v :: vs, r3)
               | none => none
           | ']' :: r2 => some ([v], r2)
           | _ => none)
      | none => none

/-- One-or-more comma-separated object members, ended by a closing brace. -/
def parseFields : Nat → List Char → Option (List (String × Json) × List Char)
  | 0, _ => none
  | fuel + 1, cs =>
      match skipSpace cs with
      | c :: r =>
          if c = '"' then
            match readStrBody r with
            | some (key, r1) =>
                (match skipSpace r1 with
                 | ':' :: r2 =>
                     match parseVal fuel r2 with
                     | some (v, r3) =>
                         (match skipSpace r3 with
                          | ',' :: r4 =>
                              match parseFields fuel r4 with
                              | some (fs, r5) => some ((⟨key⟩, v) :: fs, r5)
                              | none => none
                          | d :: r4 =>
                              if d = rcurly then some ([(⟨key⟩, v)], r4) else none
                          | [] => none)
                     | none => none
                 | _ => none)
            | none => none
          else none
      | [] => none

end

/-- `json.loads` on the generated fragment: parse a complete document,
allowing only trailing whitespace. -/
def json_loads (s : String) : Option Json :=
  match parseVal (s.data.length + 1) s.data with
  | some (j, r) => if skipSpace r = [] then some j else none
  | none => none

/-- The display name of a record, `preset['metadata']['name']`;
`none` models the `KeyError`/`TypeError` paths. -/
def presetName (p : Json) : Option String :=
  match p.getObj "metadata" with
  | some m =>
      match m.getObj "name" with
      | some (.str n) => some n
      | _ => none
  | none => none

namespace GenderPresets

/-- The artifact identifier `save_preset` derives (line 73):
the sanitized display name plus the fixed `.choirv2` extension. -/
def preset_filename (p : Json) : Option String :=
  (presetName p).map (fun n => sanitizeName n ++ ".choirv2")

/-- `save_preset` of `generate_gender_presets.py` (lines 71-79).  The
content store is a map from path to content; an existing artifact at the
derived path is overwritten.  `none` models the uncaught exception when the
record has no name. -/
def save_preset (fs : String → Option String) (p : Json) :
    Option (String → Option String) :=
  match preset_filename p with
  | some fn => some (fun q => if q = fn then some (json_dumps p) else fs q)
  | none => none

/-- Sequential construction of a catalog list: each `create_preset` call
performs two clock reads, in authoring order. -/
def buildCatalog (clock : Nat → String) : Nat → List Args → List Json
  | _, [] => []
  | t, a :: l => create_preset a clock t :: buildCatalog clock (t + 2) l

/-- The literal catalog `male_presets` of `generate_gender_presets.py`
(lines 85-302), as builder-argument records. -/
def maleArgs : List Args := [
  { name := "Male 1: Bass",
    description := "Deep male bass voice (F2-E4, 85-330 Hz)",
    language := "english",
    synthesis_method := "formant",
    lyrics := "oh oo ah",
    num_voices := (.int 4),
    formant_mix := (.int 100),
    subharmonic_mix := (.int 0),
    stereo_width := (.int 60),
    vibrato_rate := (.float 45 1),
    vibrato_depth := (.int 18),
    reverb_mix := (.int 20),
    reverb_size := (.int 40),
    attack := (.int 80),
    release := (.int 300),
    pitch_variation := (.int 5),
    timing_variation := (.int 3),
    formant_variation := (.int 8),
    breathiness := (.int 5),
    warmth := (.int 70),
    brightness := (.int 20),
    voice_types := some [("bass", JNum.int 100)],
    tags := some ["male", "bass", "low", "deep", "choir"] },
  { name := "Male 2: Baritone",
    description := "Male baritone voice (A2-F4, 110-350 Hz)",
    language := "english",
    synthesis_method := "formant",
    lyrics := "oh oo ah eh",
    num_voices := (.int 6),
    formant_mix := (.int 100),
    subharmonic_mix := (.int 0),
    stereo_width := (.int 65),
    vibrato_rate := (.float 50 1),
    vibrato_depth := (.int 22),
    reverb_mix := (.int 22),
    reverb_size := (.int 45),
    attack := (.int 60),
    release := (.int 250),
    pitch_variation := (.int 8),
    timing_variation := (.int 4),
    formant_variation := (.int 10),
    breathiness := (.int 8),
    warmth := (.int 55),
    brightness := (.int 35),
    voice_types := some [("baritone", JNum.int 100)],
    tags := some ["male", "baritone", "medium-low", "versatile"] },
  { name := "Male 3: Tenor",
    description := "Male tenor voice (C3-C5, 130-520 Hz)",
    language := "english",
    synthesis_method := "formant",
    lyrics := "ah eh ee oh",
    num_voices := (.int 8),
    formant_mix := (.int 100),
    subharmonic_mix := (.int 0),
    stereo_width := (.int 70),
    vibrato_rate := (.float 58 1),
    vibrato_depth := (.int 26),
    reverb_mix := (.int 25),
    reverb_size := (.int 50),
    attack := (.int 45),
    release := (.int 200),
    pitch_variation := (.int 10),
    timing_variation := (.int 5),
    formant_variation := (.int 12),
    breathiness := (.int 10),
    warmth := (.int 40),
    brightness := (.int 50),
    voice_types := some [("tenor", JNum.int 100)],
    tags := some ["male", "tenor", "high", "bright", "opera"] },
  { name := "Male 4: Countertenor",
    description := "Male countertenor (falsetto, G3-E5, 196-660 Hz)",
    language := "english",
    synthesis_method := "formant",
    lyrics := "ah eh ee oh oo",
    num_voices := (.int 4),
    formant_mix := (.int 100),
    subharmonic_mix := (.int 0),
    stereo_width := (.int 75),
    vibrato_rate := (.float 65 1),
    vibrato_depth := (.int 30),
    reverb_mix := (.int 30),
    reverb_size := (.int 55),
    attack := (.int 40),
    release := (.int 180),
    pitch_variation := (.int 12),
    timing_variation := (.int 6),
    formant_variation := (.int 15),
    breathiness := (.int 18),
    warmth := (.int 35),
    brightness := (.int 60),
    voice_types := some [("countertenor", JNum.int 100)],
    tags := some ["male", "countertenor", "falsetto", "high", "opera"] },
  { name := "Male 5: SATB Choir",
    description := "Traditional male SATB choir (Bass-Baritone-Tenor-Tenor)",
    language := "english",
    synthesis_method := "diphone",
    lyrics := "oh-ah ah-eh ee-oh",
    num_voices := (.int 12),
    formant_mix := (.int 100),
    subharmonic_mix := (.int 0),
    stereo_width := (.int 80),
    vibrato_rate := (.float 55 1),
    vibrato_depth := (.int 24),
    reverb_mix := (.int 35),
    reverb_size := (.int 65),
    attack := (.int 55),
    release := (.int 220),
    pitch_variation := (.int 10),
    timing_variation := (.int 5),
    formant_variation := (.int 12),
    breathiness := (.int 8),
    warmth := (.int 50),
    brightness := (.int 45),
    voice_types := some [("bass", JNum.int 25), ("baritone", JNum.int 25), ("tenor", JNum.int 50)],
    tags := some ["male", "satb", "choir", "ensemble", "traditional"] },
  { name := "Male 6: Gospel Tenor",
    description := "Soulful gospel tenor with bright timbre",
    language := "english",
    synthesis_method := "diphone",
    lyrics := "ah eh ee oh",
    num_voices := (.int 8),
    formant_mix := (.int 95),
    subharmonic_mix := (.int 5),
    stereo_width := (.int 85),
    vibrato_rate := (.float 70 1),
    vibrato_depth := (.int 35),
    reverb_mix := (.int 28),
    reverb_size := (.int 48),
    attack := (.int 30),
    release := (.int 170),
    pitch_variation := (.int 15),
    timing_variation := (.int 7),
    breathiness := (.int 15),
    warmth := (.int 45),
    brightness := (.int 70),
    voice_types := some [("tenor", JNum.int 100)],
    tags := some ["male", "gospel", "tenor", "soul", "bright"] },
  { name := "Male 7: Pop Baritone",
    description := "Modern pop baritone backing vocals",
    language := "english",
    synthesis_method := "diphone",
    lyrics := "oh ah eh",
    num_voices := (.int 6),
    formant_mix := (.int 90),
    subharmonic_mix := (.int 10),
    stereo_width := (.int 70),
    vibrato_rate := (.float 62 1),
    vibrato_depth := (.int 28),
    reverb_mix := (.int 18),
    reverb_size := (.int 35),
    attack := (.int 25),
    release := (.int 150),
    pitch_variation := (.int 8),
    timing_variation := (.int 4),
    breathiness := (.int 8),
    warmth := (.int 40),
    brightness := (.int 60),
    voice_types := some [("baritone", JNum.int 100)],
    tags := some ["male", "pop", "baritone", "backing-vocals", "modern"] },
  { name := "Male 8: Russian Bass",
    description := "Deep Russian Orthodox bass (oktavist)",
    language := "russian",
    synthesis_method := "formant",
    lyrics := "oh oo",
    num_voices := (.int 6),
    formant_mix := (.int 100),
    subharmonic_mix := (.int 0),
    stereo_width := (.int 55),
    vibrato_rate := (.float 40 1),
    vibrato_depth := (.int 15),
    reverb_mix := (.int 45),
    reverb_size := (.int 80),
    attack := (.int 100),
    release := (.int 400),
    pitch_variation := (.int 4),
    timing_variation := (.int 2),
    breathiness := (.int 5),
    warmth := (.int 75),
    brightness := (.int 15),
    voice_types := some [("bass", JNum.int 100)],
    tags := some ["male", "bass", "russian", "orthodox", "deep", "octavist"] }
]

/-- The literal catalog `female_presets` of `generate_gender_presets.py`
(lines 308-524), as builder-argument records. -/
def femaleArgs : List Args := [
  { name := "Female 1: Soprano",
    description := "Female soprano voice (C4-C6, 260-1050 Hz)",
    language := "english",
    synthesis_method := "formant",
    lyrics := "ah eh ee oh oo",
    num_voices := (.int 8),
    formant_mix := (.int 100),
    subharmonic_mix := (.int 0),
    stereo_width := (.int 75),
    vibrato_rate := (.float 68 1),
    vibrato_depth := (.int 32),
    reverb_mix := (.int 28),
    reverb_size := (.int 52),
    attack := (.int 40),
    release := (.int 180),
    pitch_variation := (.int 12),
    timing_variation := (.int 6),
    formant_variation := (.int 15),
    breathiness := (.int 12),
    warmth := (.int 30),
    brightness := (.int 70),
    voice_types := some [("soprano", JNum.int 100)],
    tags := some ["female", "soprano", "high", "bright", "opera"] },
  { name := "Female 2: Mezzo-Soprano",
    description := "Female mezzo-soprano (A3-A5, 220-880 Hz)",
    language := "english",
    synthesis_method := "formant",
    lyrics := "ah eh ee oh",
    num_voices := (.int 6),
    formant_mix := (.int 100),
    subharmonic_mix := (.int 0),
    stereo_width := (.int 72),
    vibrato_rate := (.float 64 1),
    vibrato_depth := (.int 28),
    reverb_mix := (.int 26),
    reverb_size := (.int 48),
    attack := (.int 45),
    release := (.int 190),
    pitch_variation := (.int 10),
    timing_variation := (.int 5),
    formant_variation := (.int 12),
    breathiness := (.int 10),
    warmth := (.int 38),
    brightness := (.int 58),
    voice_types := some [("mezzo_soprano", JNum.int 100)],
    tags := some ["female", "mezzo-soprano", "medium-high", "versatile"] },
  { name := "Female 3: Alto",
    description := "Female alto voice (F3-D5, 175-590 Hz)",
    language := "english",
    synthesis_method := "formant",
    lyrics := "ah oh oo eh",
    num_voices := (.int 6),
    formant_mix := (.int 100),
    subharmonic_mix := (.int 0),
    stereo_width := (.int 68),
    vibrato_rate := (.float 60 1),
    vibrato_depth := (.int 24),
    reverb_mix := (.int 24),
    reverb_size := (.int 45),
    attack := (.int 50),
    release := (.int 200),
    pitch_variation := (.int 10),
    timing_variation := (.int 5),
    formant_variation := (.int 12),
    breathiness := (.int 10),
    warmth := (.int 45),
    brightness := (.int 50),
    voice_types := some [("alto", JNum.int 100)],
    tags := some ["female", "alto", "low", "warm", "harmony"] },
  { name := "Female 4: Coloratura",
    description := "Agile female coloratura with fast passages",
    language := "english",
    synthesis_method := "diphone",
    lyrics := "ah-eh ee-oh oh-oo",
    num_voices := (.int 4),
    formant_mix := (.int 100),
    subharmonic_mix := (.int 0),
    stereo_width := (.int 78),
    vibrato_rate := (.float 75 1),
    vibrato_depth := (.int 38),
    reverb_mix := (.int 22),
    reverb_size := (.int 40),
    attack := (.int 20),
    release := (.int 120),
    pitch_variation := (.int 18),
    timing_variation := (.int 8),
    breathiness := (.int 8),
    warmth := (.int 25),
    brightness := (.int 80),
    voice_types := some [("coloratura", JNum.int 100)],
    tags := some ["female", "coloratura", "agile", "high", "opera"] },
  { name := "Female 5: SSAA Choir",
    description := "Traditional female SSAA choir (Soprano1-Soprano2-Alto1-Alto2)",
    language := "english",
    synthesis_method := "diphone",
    lyrics := "ah-eh ee-oh oh-oo",
    num_voices := (.int 12),
    formant_mix := (.int 100),
    subharmonic_mix := (.int 0),
    stereo_width := (.int 85),
    vibrato_rate := (.float 65 1),
    vibrato_depth := (.int 28),
    reverb_mix := (.int 32),
    reverb_size := (.int 58),
    attack := (.int 42),
    release := (.int 185),
    pitch_variation := (.int 12),
    timing_variation := (.int 6),
    formant_variation := (.int 15),
    breathiness := (.int 12),
    warmth := (.int 38),
    brightness := (.int 62),
    voice_types := some [("soprano", JNum.int 50), ("mezzo_soprano", JNum.int 25), ("alto", JNum.int 25)],
    tags := some ["female", "ssaa", "choir", "ensemble", "traditional"] },
  { name := "Female 6: Pop Soprano",
    description := "Modern pop soprano lead vocals",
    language := "english",
    synthesis_method := "diphone",
    lyrics := "ah eh ee oh",
    num_voices := (.int 6),
    formant_mix := (.int 92),
    subharmonic_mix := (.int 8),
    stereo_width := (.int 80),
    vibrato_rate := (.float 72 1),
    vibrato_depth := (.int 35),
    reverb_mix := (.int 15),
    reverb_size := (.int 30),
    attack := (.int 20),
    release := (.int 140),
    pitch_variation := (.int 15),
    timing_variation := (.int 7),
    breathiness := (.int 15),
    warmth := (.int 35),
    brightness := (.int 75),
    voice_types := some [("soprano", JNum.int 100)],
    tags := some ["female", "pop", "soprano", "lead", "modern"] },
  { name := "Female 7: Folk Alto",
    description := "Warm folk alto with intimate character",
    language := "english",
    synthesis_method := "formant",
    lyrics := "ah oh oo",
    num_voices := (.int 4),
    formant_mix := (.int 95),
    subharmonic_mix := (.int 5),
    stereo_width := (.int 60),
    vibrato_rate := (.float 55 1),
    vibrato_depth := (.int 20),
    reverb_mix := (.int 20),
    reverb_size := (.int 35),
    attack := (.int 55),
    release := (.int 210),
    pitch_variation := (.int 8),
    timing_variation := (.int 4),
    breathiness := (.int 12),
    warmth := (.int 55),
    brightness := (.int 45),
    voice_types := some [("alto", JNum.int 100)],
    tags := some ["female", "alto", "folk", "warm", "intimate"] },
  { name := "Female 8: Jazz Soprano",
    description := "Smoky jazz club soprano with vibrato",
    language := "english",
    synthesis_method := "formant",
    lyrics := "ah eh ee oh",
    num_voices := (.int 4),
    formant_mix := (.int 98),
    subharmonic_mix := (.int 2),
    stereo_width := (.int 70),
    vibrato_rate := (.float 80 1),
    vibrato_depth := (.int 40),
    reverb_mix := (.int 25),
    reverb_size := (.int 45),
    attack := (.int 35),
    release := (.int 170),
    pitch_variation := (.int 20),
    timing_variation := (.int 8),
    breathiness := (.int 18),
    warmth := (.int 50),
    brightness := (.int 60),
    voice_types := some [("soprano", JNum.int 100)],
    tags := some ["female", "soprano", "jazz", "smoky", "club"] }
]

/-- The literal catalog `child_presets` of `generate_gender_presets.py`
(lines 530-640), as builder-argument records. -/
def childArgs : List Args := [
  { name := "Child 1: Boy Soprano",
    description := "Boy soprano before voice change (C4-A5, 260-880 Hz)",
    language := "english",
    synthesis_method := "formant",
    lyrics := "ah eh ee oh",
    num_voices := (.int 8),
    formant_mix := (.int 100),
    subharmonic_mix := (.int 0),
    stereo_width := (.int 70),
    vibrato_rate := (.float 60 1),
    vibrato_depth := (.int 22),
    reverb_mix := (.int 30),
    reverb_size := (.int 55),
    attack := (.int 45),
    release := (.int 190),
    pitch_variation := (.int 8),
    timing_variation := (.int 4),
    formant_variation := (.int 10),
    breathiness := (.int 8),
    warmth := (.int 40),
    brightness := (.int 65),
    voice_types := some [("boy_soprano", JNum.int 100)],
    tags := some ["child", "boy", "soprano", "choir", "bright"] },
  { name := "Child 2: Girl Soprano",
    description := "Girl soprano (C4-C6, 260-1050 Hz)",
    language := "english",
    synthesis_method := "formant",
    lyrics := "ah eh ee oh oo",
    num_voices := (.int 8),
    formant_mix := (.int 100),
    subharmonic_mix := (.int 0),
    stereo_width := (.int 72),
    vibrato_rate := (.float 65 1),
    vibrato_depth := (.int 25),
    reverb_mix := (.int 28),
    reverb_size := (.int 50),
    attack := (.int 40),
    release := (.int 180),
    pitch_variation := (.int 10),
    timing_variation := (.int 5),
    formant_variation := (.int 12),
    breathiness := (.int 10),
    warmth := (.int 35),
    brightness := (.int 70),
    voice_types := some [("girl_soprano", JNum.int 100)],
    tags := some ["child", "girl", "soprano", "bright", "choir"] },
  { name := "Child 3: Children\x27s Choir",
    description := "Mixed children\x27s choir (boys and girls)",
    language := "english",
    synthesis_method := "diphone",
    lyrics := "ah-eh ee-oh",
    num_voices := (.int 16),
    formant_mix := (.int 100),
    subharmonic_mix := (.int 0),
    stereo_width := (.int 75),
    vibrato_rate := (.float 62 1),
    vibrato_depth := (.int 24),
    reverb_mix := (.int 25),
    reverb_size := (.int 45),
    attack := (.int 40),
    release := (.int 170),
    pitch_variation := (.int 12),
    timing_variation := (.int 6),
    formant_variation := (.int 12),
    breathiness := (.int 12),
    warmth := (.int 38),
    brightness := (.int 68),
    voice_types := some [("boy_soprano", JNum.int 50), ("girl_soprano", JNum.int 50)],
    tags := some ["child", "children", "choir", "ensemble", "bright"] },
  { name := "Child 4: Choirboys",
    description := "Traditional English choirboys",
    language := "english",
    synthesis_method := "formant",
    lyrics := "ah eh ee oh oo",
    num_voices := (.int 12),
    formant_mix := (.int 100),
    subharmonic_mix := (.int 0),
    stereo_width := (.int 65),
    vibrato_rate := (.float 58 1),
    vibrato_depth := (.int 20),
    reverb_mix := (.int 40),
    reverb_size := (.int 75),
    attack := (.int 70),
    release := (.int 280),
    pitch_variation := (.int 6),
    timing_variation := (.int 4),
    breathiness := (.int 10),
    warmth := (.int 45),
    brightness := (.int 60),
    voice_types := some [("boy_soprano", JNum.int 100)],
    tags := some ["child", "choirboy", "traditional", "church", "english"] }
]

/-- The literal catalog `mixed_presets` of `generate_gender_presets.py`
(lines 646-975), as builder-argument records. -/
def mixedArgs : List Args := [
  { name := "Mixed 1: SATB Balanced",
    description := "Traditional SATB with equal male/female balance",
    language := "english",
    synthesis_method := "diphone",
    lyrics := "oh-ah ah-eh ee-oh oh-oo",
    num_voices := (.int 16),
    formant_mix := (.int 100),
    subharmonic_mix := (.int 0),
    stereo_width := (.int 85),
    vibrato_rate := (.float 60 1),
    vibrato_depth := (.int 26),
    reverb_mix := (.int 35),
    reverb_size := (.int 65),
    attack := (.int 50),
    release := (.int 210),
    pitch_variation := (.int 12),
    timing_variation := (.int 6),
    formant_variation := (.int 14),
    breathiness := (.int 10),
    warmth := (.int 45),
    brightness := (.int 55),
    voice_types := some [("soprano", JNum.int 25), ("alto", JNum.int 25), ("tenor", JNum.int 25), ("bass", JNum.int 25)],
    gender_balance := some [("male", JNum.int 50), ("female", JNum.int 50)],
    tags := some ["mixed", "satb", "balanced", "choir", "traditional"] },
  { name := "Mixed 2: Female Heavy",
    description := "Female-dominated ensemble (60% female, 40% male)",
    language := "english",
    synthesis_method := "diphone",
    lyrics := "ah-eh ee-oh oh-oo",
    num_voices := (.int 20),
    formant_mix := (.int 100),
    subharmonic_mix := (.int 0),
    stereo_width := (.int 88),
    vibrato_rate := (.float 63 1),
    vibrato_depth := (.int 28),
    reverb_mix := (.int 32),
    reverb_size := (.int 60),
    attack := (.int 42),
    release := (.int 190),
    pitch_variation := (.int 14),
    timing_variation := (.int 7),
    formant_variation := (.int 16),
    breathiness := (.int 12),
    warmth := (.int 40),
    brightness := (.int 65),
    voice_types := some [("soprano", JNum.int 35), ("alto", JNum.int 25), ("mezzo_soprano", JNum.int 10), ("tenor", JNum.int 20), ("bass", JNum.int 10)],
    gender_balance := some [("male", JNum.int 40), ("female", JNum.int 60)],
    tags := some ["mixed", "female-heavy", "bright", "choir", "ensemble"] },
  { name := "Mixed 3: Male Heavy",
    description := "Male-dominated ensemble (60% male, 40% female)",
    language := "english",
    synthesis_method := "diphone",
    lyrics := "oh-ah ah-eh ee-oh",
    num_voices := (.int 20),
    formant_mix := (.int 100),
    subharmonic_mix := (.int 0),
    stereo_width := (.int 80),
    vibrato_rate := (.float 58 1),
    vibrato_depth := (.int 24),
    reverb_mix := (.int 30),
    reverb_size := (.int 55),
    attack := (.int 55),
    release := (.int 220),
    pitch_variation := (.int 12),
    timing_variation := (.int 6),
    formant_variation := (.int 12),
    breathiness := (.int 8),
    warmth := (.int 55),
    brightness := (.int 40),
    voice_types := some [("soprano", JNum.int 15), ("alto", JNum.int 25), ("tenor", JNum.int 30), ("baritone", JNum.int 15), ("bass", JNum.int 15)],
    gender_balance := some [("male", JNum.int 60), ("female", JNum.int 40)],
    tags := some ["mixed", "male-heavy", "warm", "powerful", "choir"] },
  { name := "Mixed 4: Double Choir",
    description := "Massive double choir (32 voices, SATB + SATB)",
    language := "english",
    synthesis_method := "diphone",
    lyrics := "ah-eh ee-oh oh-oo",
    num_voices := (.int 32),
    formant_mix := (.int 100),
    subharmonic_mix := (.int 0),
    stereo_width := (.int 100),
    vibrato_rate := (.float 62 1),
    vibrato_depth := (.int 26),
    reverb_mix := (.int 45),
    reverb_size := (.int 75),
    attack := (.int 50),
    release := (.int 220),
    pitch_variation := (.int 14),
    timing_variation := (.int 7),
    formant_variation := (.int 15),
    breathiness := (.int 10),
    warmth := (.int 48),
    brightness := (.int 52),
    voice_types := some [("soprano", JNum.int 25), ("alto", JNum.int 25), ("tenor", JNum.int 25), ("bass", JNum.int 25)],
    gender_balance := some [("male", JNum.int 50), ("female", JNum.int 50)],
    tags := some ["mixed", "double-choir", "massive", "satb", "powerful"] },
  { name := "Mixed 5: Chamber Choir",
    description := "Intimate chamber choir with refined blend",
    language := "english",
    synthesis_method := "diphone",
    lyrics := "ah-eh ee-oh oh-oo",
    num_voices := (.int 12),
    formant_mix := (.int 100),
    subharmonic_mix := (.int 0),
    stereo_width := (.int 75),
    vibrato_rate := (.float 60 1),
    vibrato_depth := (.int 24),
    reverb_mix := (.int 28),
    reverb_size := (.int 50),
    attack := (.int 45),
    release := (.int 200),
    pitch_variation := (.int 10),
    timing_variation := (.int 5),
    formant_variation := (.int 12),
    breathiness := (.int 8),
    warmth := (.int 45),
    brightness := (.int 55),
    voice_types := some [("soprano", JNum.int 30), ("alto", JNum.int 25), ("tenor", JNum.int 25), ("bass", JNum.int 20)],
    gender_balance := some [("male", JNum.int 48), ("female", JNum.int 52)],
    tags := some ["mixed", "chamber", "intimate", "refined", "choir"] },
  { name := "Mixed 6: Cathedral Choir",
    description := "Large cathedral choir with reverberant space",
    language := "latin",
    synthesis_method := "formant",
    lyrics := "ah-eh-ee-oh-oo",
    num_voices := (.int 24),
    formant_mix := (.int 100),
    subharmonic_mix := (.int 0),
    stereo_width := (.int 90),
    vibrato_rate := (.float 55 1),
    vibrato_depth := (.int 22),
    reverb_mix := (.int 60),
    reverb_size := (.int 100),
    attack := (.int 80),
    release := (.int 350),
    pitch_variation := (.int 12),
    timing_variation := (.int 6),
    formant_variation := (.int 10),
    breathiness := (.int 12),
    warmth := (.int 55),
    brightness := (.int 45),
    voice_types := some [("soprano", JNum.int 25), ("alto", JNum.int 25), ("tenor", JNum.int 25), ("bass", JNum.int 25)],
    gender_balance := some [("male", JNum.int 50), ("female", JNum.int 50)],
    tags := some ["mixed", "cathedral", "large", "reverb", "latin"] },
  { name := "Mixed 7: Gospel Choir",
    description := "Energetic gospel choir with female lead",
    language := "english",
    synthesis_method := "diphone",
    lyrics := "ah-eh ee-oh oh-ay",
    num_voices := (.int 24),
    formant_mix := (.int 95),
    subharmonic_mix := (.int 5),
    stereo_width := (.int 90),
    vibrato_rate := (.float 70 1),
    vibrato_depth := (.int 35),
    reverb_mix := (.int 30),
    reverb_size := (.int 55),
    attack := (.int 35),
    release := (.int 180),
    pitch_variation := (.int 18),
    timing_variation := (.int 8),
    breathiness := (.int 15),
    warmth := (.int 45),
    brightness := (.int 70),
    voice_types := some [("soprano", JNum.int 40), ("alto", JNum.int 30), ("tenor", JNum.int 20), ("bass", JNum.int 10)],
    gender_balance := some [("male", JNum.int 35), ("female", JNum.int 65)],
    tags := some ["mixed", "gospel", "energetic", "soul", "female-heavy"] },
  { name := "Mixed 8: Barbershop Mixed",
    description := "Mixed gender barbershop harmony",
    language := "english",
    synthesis_method := "diphone",
    lyrics := "ah-eh ee-oh",
    num_voices := (.int 4),
    formant_mix := (.int 98),
    subharmonic_mix := (.int 2),
    stereo_width := (.int 70),
    vibrato_rate := (.float 65 1),
    vibrato_depth := (.int 30),
    reverb_mix := (.int 10),
    reverb_size := (.int 25),
    attack := (.int 25),
    release := (.int 150),
    pitch_variation := (.int 6),
    timing_variation := (.int 3),
    breathiness := (.int 8),
    warmth := (.int 50),
    brightness := (.int 60),
    voice_types := some [("tenor", JNum.int 25), ("lead", JNum.int 25), ("baritone", JNum.int 25), ("bass", JNum.int 25)],
    gender_balance := some [("male", JNum.int 75), ("female", JNum.int 25)],
    tags := some ["mixed", "barbershop", "harmony", "close-harmony"] },
  { name := "Mixed 9: Contemporary Worship",
    description := "Modern worship team with balanced voices",
    language := "english",
    synthesis_method := "diphone",
    lyrics := "ah-eh ee-oh oh-oo",
    num_voices := (.int 12),
    formant_mix := (.int 92),
    subharmonic_mix := (.int 8),
    stereo_width := (.int 82),
    vibrato_rate := (.float 62 1),
    vibrato_depth := (.int 28),
    reverb_mix := (.int 25),
    reverb_size := (.int 45),
    attack := (.int 30),
    release := (.int 170),
    pitch_variation := (.int 12),
    timing_variation := (.int 6),
    breathiness := (.int 10),
    warmth := (.int 42),
    brightness := (.int 62),
    voice_types := some [("soprano", JNum.int 30), ("alto", JNum.int 25), ("tenor", JNum.int 25), ("bass", JNum.int 20)],
    gender_balance := some [("male", JNum.int 50), ("female", JNum.int 50)],
    tags := some ["mixed", "worship", "contemporary", "modern", "balanced"] },
  { name := "Mixed 10: Renaissance Polyphony",
    description := "Authentic Renaissance polyphony (male-heavy)",
    language := "latin",
    synthesis_method := "diphone",
    lyrics := "ah-eh ee-oh oh-oo",
    num_voices := (.int 16),
    formant_mix := (.int 100),
    subharmonic_mix := (.int 0),
    stereo_width := (.int 70),
    vibrato_rate := (.float 55 1),
    vibrato_depth := (.int 18),
    reverb_mix := (.int 35),
    reverb_size := (.int 60),
    attack := (.int 55),
    release := (.int 230),
    pitch_variation := (.int 8),
    timing_variation := (.int 4),
    formant_variation := (.int 10),
    breathiness := (.int 8),
    warmth := (.int 52),
    brightness := (.int 42),
    voice_types := some [("soprano", JNum.int 20), ("alto", JNum.int 30), ("tenor", JNum.int 30), ("bass", JNum.int 20)],
    gender_balance := some [("male", JNum.int 80), ("female", JNum.int 20)],
    tags := some ["mixed", "renaissance", "polyphony", "authentic", "latin"] }
]

/-- The literal catalog `nonbinary_presets` of `generate_gender_presets.py`
(lines 981-1089), as builder-argument records. -/
def nonbinaryArgs : List Args := [
  { name := "Non-Binary 1: Neutral Voice",
    description := "Gender-neutral voice with balanced characteristics",
    language := "english",
    synthesis_method := "formant",
    lyrics := "ah eh ee oh oo",
    num_voices := (.int 8),
    formant_mix := (.int 100),
    subharmonic_mix := (.int 0),
    stereo_width := (.int 75),
    vibrato_rate := (.float 60 1),
    vibrato_depth := (.int 25),
    reverb_mix := (.int 25),
    reverb_size := (.int 50),
    attack := (.int 50),
    release := (.int 200),
    pitch_variation := (.int 10),
    timing_variation := (.int 5),
    formant_variation := (.int 10),
    breathiness := (.int 10),
    warmth := (.int 50),
    brightness := (.int 50),
    voice_types := some [("neutral", JNum.int 100)],
    gender_balance := some [("male", JNum.int 50), ("female", JNum.int 50)],
    tags := some ["non-binary", "neutral", "balanced", "versatile"] },
  { name := "Non-Binary 2: Androgynous High",
    description := "Androgynous high voice (flexible gender)",
    language := "english",
    synthesis_method := "formant",
    lyrics := "ah eh ee oh",
    num_voices := (.int 6),
    formant_mix := (.int 100),
    subharmonic_mix := (.int 0),
    stereo_width := (.int 78),
    vibrato_rate := (.float 65 1),
    vibrato_depth := (.int 28),
    reverb_mix := (.int 22),
    reverb_size := (.int 45),
    attack := (.int 40),
    release := (.int 180),
    pitch_variation := (.int 14),
    timing_variation := (.int 7),
    formant_variation := (.int 14),
    breathiness := (.int 10),
    warmth := (.int 45),
    brightness := (.int 55),
    voice_types := some [("androgynous", JNum.int 100)],
    gender_balance := some [("male", JNum.int 50), ("female", JNum.int 50)],
    tags := some ["non-binary", "androgynous", "high", "flexible"] },
  { name := "Non-Binary 3: Gender Fluid",
    description := "Voice that can shift between male/female characteristics",
    language := "english",
    synthesis_method := "diphone",
    lyrics := "ah-eh ee-oh oh-oo",
    num_voices := (.int 8),
    formant_mix := (.int 100),
    subharmonic_mix := (.int 0),
    stereo_width := (.int 80),
    vibrato_rate := (.float 62 1),
    vibrato_depth := (.int 26),
    reverb_mix := (.int 25),
    reverb_size := (.int 48),
    attack := (.int 45),
    release := (.int 190),
    pitch_variation := (.int 20),
    timing_variation := (.int 10),
    formant_variation := (.int 20),
    breathiness := (.int 12),
    warmth := (.int 48),
    brightness := (.int 52),
    voice_types := some [("gender_fluid", JNum.int 100)],
    gender_balance := some [("male", JNum.int 50), ("female", JNum.int 50)],
    tags := some ["non-binary", "gender-fluid", "versatile", "shifting"] },
  { name := "Non-Binary 4: Third Gender",
    description := "Traditional third gender voice (Hijra/Two-Spirit)",
    language := "english",
    synthesis_method := "formant",
    lyrics := "ah eh ee oh",
    num_voices := (.int 6),
    formant_mix := (.int 100),
    subharmonic_mix := (.int 0),
    stereo_width := (.int 72),
    vibrato_rate := (.float 60 1),
    vibrato_depth := (.int 24),
    reverb_mix := (.int 30),
    reverb_size := (.int 55),
    attack := (.int 60),
    release := (.int 220),
    pitch_variation := (.int 12),
    timing_variation := (.int 6),
    formant_variation := (.int 12),
    breathiness := (.int 15),
    warmth := (.int 55),
    brightness := (.int 45),
    voice_types := some [("third_gender", JNum.int 100)],
    gender_balance := some [("male", JNum.int 50), ("female", JNum.int 50)],
    tags := some ["non-binary", "third-gender", "traditional", "cultural"] }
]

/-- The built `male_presets` list, from clock position `t`. -/
def male_presets (clock : Nat → String) (t : Nat) : List Json :=
  buildCatalog clock t maleArgs

/-- The built `female_presets` list. -/
def female_presets (clock : Nat → String) (t : Nat) : List Json :=
  buildCatalog clock t femaleArgs

/-- The built `child_presets` list. -/
def child_presets (clock : Nat → String) (t : Nat) : List Json :=
  buildCatalog clock t childArgs

/-- The built `mixed_presets` list. -/
def mixed_presets (clock : Nat → String) (t : Nat) : List Json :=
  buildCatalog clock t mixedArgs

/-- The built `nonbinary_presets` list. -/
def nonbinary_presets (clock : Nat → String) (t : Nat) : List Json :=
  buildCatalog clock t nonbinaryArgs

/-- The five argument catalogs in assembly order. -/
def gArgsAll : List Args :=
  maleArgs ++ femaleArgs ++ childArgs ++ mixedArgs ++ nonbinaryArgs

/-- `all_presets` of `main` (lines 1098-1104): the five catalogs
concatenated in assembly order; module evaluation order fixes the clock
offsets (two reads per entry). -/
def all_presets (clock : Nat → String) (t : Nat) : List Json :=
  male_presets clock t ++ female_presets clock (t + 16) ++
  child_presets clock (t + 32) ++ mixed_presets clock (t + 40) ++
  nonbinary_presets clock (t + 60)

/-- The write loop of `main` (lines 1106-1107): sequential saves in
assembly order, aborting on the first failure. -/
def run_batch (fs : String → Option String) :
    List Json → Option (String → Option String)
  | [] => some fs
  | p :: ps =>
      match save_preset fs p with
      | some fs2 => run_batch fs2 ps
      | none => none

end GenderPresets

namespace AdditionalPresets

/-- The artifact identifier `save_preset` derives (line 62): the same
derivation as the gender script's. -/
def preset_filename (p : Json) : Option String :=
  (presetName p).map (fun n => sanitizeName n ++ ".choirv2")

/-- `save_preset` of `additional_presets.py` (lines 60-68), a verbatim
duplicate of the gender script's writer. -/
def save_preset (fs : String → Option String) (p : Json) :
    Option (String → Option String) :=
  match preset_filename p with
  | some fn => some (fun q => if q = fn then some (json_dumps p) else fs q)
  | none => none

end AdditionalPresets

/-! ### Accessors and auxiliary definitions used by the statements -/

/-- `preset['parameters'][k]`, `None`-flavoured. -/
def paramOf (p : Json) (k : String) : Option Json :=
  match p.getObj "parameters" with
  | some ps => ps.getObj k
  | none => none

/-- `preset['metadata'][k]`, `None`-flavoured. -/
def metaOf (p : Json) (k : String) : Option Json :=
  match p.getObj "metadata" with
  | some m => m.getObj k
  | none => none

/-- The fixed 23-field scalar schema of the `parameters` dictionary, in
insertion order. -/
def schemaKeys : List String :=
  ["num_voices", "master_gain", "language", "lyrics", "synthesis_method",
   "formant_mix", "subharmonic_mix", "stereo_width", "vibrato_rate",
   "vibrato_depth", "reverb_mix", "reverb_size", "attack_time",
   "release_time", "enable_anti_aliasing", "enable_spectral_enhancement",
   "oversampling_factor", "pitch_variation", "timing_variation",
   "formant_variation", "breathiness", "warmth", "brightness"]

/-- The numeric value stored under key `k` of a distribution dictionary
(`0` when absent or non-numeric). -/
def numAt (fields : List (String × Json)) (k : String) : ℚ :=
  match fields.lookup k with
  | some (.num v) => v.toRat
  | _ => 0

/-- The sum of the numeric values of a distribution dictionary. -/
def distSum (fields : List (String × Json)) : ℚ :=
  (fields.map (fun kv => match kv.2 with | .num v => v.toRat | _ => 0)).sum

/-- Is this weight entry an `int` (every authored catalog weight is)? -/
def isIntWeight : (String × JNum) → Bool
  | (_, .int _) => true
  | (_, .float _ _) => false

/-- The integer sum of the `int` weights of a distribution argument. -/
def intSum (m : List (String × JNum)) : Int :=
  (m.map (fun kv => match kv.2 with | .int n => n | .float _ _ => 0)).sum

/-- The integer weight stored under key `k` of a distribution argument. -/
def intAt (m : List (String × JNum)) (k : String) : Int :=
  match m.lookup k with
  | some (.int n) => n
  | _ => 0

/-- Characters `json.dump(..., ensure_ascii=True)` emits verbatim inside a
string literal (printable ASCII, no quote, no backslash): the fragment the
catalog strings inhabit. -/
def wfChar (c : Char) : Bool :=
  31 < c.toNat && c.toNat < 127 && c ≠ '"' && c ≠ '\\'

/-- A string of the escape-free fragment. -/
def wfStr (s : String) : Bool := s.data.all wfChar

/-- A number whose printed form the parser inverts: any int; a float with
at least one digit after the point (every float of the scripts). -/
def wfNum : JNum → Bool
  | .int _ => true
  | .float _ e => decide (1 ≤ e)

mutual

/-- A value of the round-tripping fragment. -/
def wfJson : Json → Bool
  | .str s => wfStr s
  | .num v => wfNum v
  | .bool _ => true
  | .arr xs => wfList xs
  | .obj fs => wfFields fs
termination_by j => sizeOf j

/-- All members of a list are well-formed. -/
def wfList : List Json → Bool
  | [] => true
  | x :: xs => wfJson x && wfList xs
termination_by xs => sizeOf xs

/-- All keys and values of a dictionary are well-formed. -/
def wfFields : List (String × Json) → Bool
  | [] => true
  | (k, v) :: fs => wfStr k && wfJson v && wfFields fs
termination_by fs => sizeOf fs

end

/-- A well-formed distribution argument: keys and weights in the
round-tripping fragment. -/
def wfDist (m : List (String × JNum)) : Bool :=
  m.all (fun kv => wfStr kv.1 && wfNum kv.2)

namespace GenderPresets

/-- All builder arguments lie in the round-tripping fragment. -/
def wfArgs (a : Args) : Bool :=
  wfStr a.name && wfStr a.description && wfStr a.language &&
  wfStr a.synthesis_method && wfStr a.lyrics &&
  (a.tags.getD []).all wfStr &&
  wfNum a.num_voices && wfNum a.formant_mix && wfNum a.subharmonic_mix &&
  wfNum a.stereo_width && wfNum a.vibrato_rate && wfNum a.vibrato_depth &&
  wfNum a.reverb_mix && wfNum a.reverb_size && wfNum a.attack &&
  wfNum a.release && wfNum a.pitch_variation && wfNum a.timing_variation &&
  wfNum a.formant_variation && wfNum a.breathiness && wfNum a.warmth &&
  wfNum a.brightness &&
  wfDist (a.gender_balance.getD []) && wfDist (a.voice_types.getD [])

/-- The artifact that survives at `path` after the whole batch: the last
record in assembly order whose derived identifier is `path`. -/
def lastWrite (path : String) : List Json → Option Json
  | [] => none
  | p :: ps =>
      match lastWrite path ps with
      | some q => some q
      | none => if preset_filename p = some path then some p else none

end GenderPresets

namespace AdditionalPresets

/-- All builder arguments lie in the round-tripping fragment. -/
def wfArgs (a : Args) : Bool :=
  wfStr a.name && wfStr a.description && wfStr a.language &&
  wfStr a.synthesis_method && wfStr a.lyrics &&
  (a.tags.getD []).all wfStr &&
  wfNum a.num_voices && wfNum a.formant_mix && wfNum a.subharmonic_mix &&
  wfNum a.stereo_width && wfNum a.vibrato_rate && wfNum a.vibrato_depth &&
  wfNum a.reverb_mix && wfNum a.reverb_size && wfNum a.attack &&
  wfNum a.release && wfNum a.pitch_variation && wfNum a.timing_variation &&
  wfNum a.formant_variation && wfNum a.breathiness && wfNum a.warmth &&
  wfNum a.brightness

end AdditionalPresets

/-- The gender-script argument record carrying the same data as an
additional-script one (no optional maps there, hence `none`). -/
def toGPArgs (a : AdditionalPresets.Args) : GenderPresets.Args :=
  { name := a.name, description := a.description, language := a.language,
    synthesis_method := a.synthesis_method, lyrics := a.lyrics,
    num_voices := a.num_voices, formant_mix := a.formant_mix,
    subharmonic_mix := a.subharmonic_mix, stereo_width := a.stereo_width,
    vibrato_rate := a.vibrato_rate, vibrato_depth := a.vibrato_depth,
    reverb_mix := a.reverb_mix, reverb_size := a.reverb_size,
    attack := a.attack, release := a.release,
    pitch_variation := a.pitch_variation,
    timing_variation := a.timing_variation,
    formant_variation := a.formant_variation,
    breathiness := a.breathiness, warmth := a.warmth,
    brightness := a.brightness, tags := a.tags }

/-- A gender-script builder call supplying only the five required
arguments (all other parameters keep their declared defaults). -/
def GenderPresets.requiredOnly (n d l m ly : String) : GenderPresets.Args :=
  { name := n, description := d, language := l, synthesis_method := m, lyrics := ly }

/-- An additional-script builder call supplying only the five required
arguments. -/
def AdditionalPresets.requiredOnly (n d l m ly : String) : AdditionalPresets.Args :=
  { name := n, description := d, language := l, synthesis_method := m, lyrics := ly }

/-- A minimal gender-script call: the five required arguments only. -/
def sampleArgs : GenderPresets.Args :=
  { name := "Sample", description := "a sample", language := "english",
    synthesis_method := "formant", lyrics := "ah" }

/-- A call supplying `voice_types` as a non-`None` but empty dictionary. -/
def emptyVTArgs : GenderPresets.Args :=
  { name := "Empty Map", description := "d", language := "english",
    synthesis_method := "formant", lyrics := "ah", voice_types := some [] }

/-- A minimal additional-script call. -/
def sampleAPArgs : AdditionalPresets.Args :=
  { name := "Sample", description := "a sample", language := "english",
    synthesis_method := "formant", lyrics := "ah" }

/-- First of two catalog entries sharing one display name. -/
def collideArgs1 : GenderPresets.Args :=
  { name := "Dup", description := "one", language := "english",
    synthesis_method := "formant", lyrics := "ah" }

/-- Second of two catalog entries sharing one display name. -/
def collideArgs2 : GenderPresets.Args :=
  { name := "Dup", description := "two", language := "english",
    synthesis_method := "formant", lyrics := "oh" }

/-- A clock whose first two readings differ. -/
def clockAB : Nat → String := fun n => if n = 0 then "A" else "B"

/-- A constant clock. -/
def clockT : Nat → String := fun _ => "T"

/-- What follows the first rendered item of a list: nothing, or a comma,
newline, and the remaining item lines. -/
def itemsSep (ind : Nat) : List Json → List Char
  | [] => []
  | y :: ys => ',' :: '\n' :: dumpItems ind y ys

/-- What follows the first rendered member of a dictionary. -/
def fieldsSep (ind : Nat) : List (String × Json) → List Char
  | [] => []
  | g :: gs => ',' :: '\n' :: dumpFields ind g gs

/-- A remainder that cannot extend a rendered number: empty, or headed by
neither a digit nor a point. -/
def numStop : List Char → Bool
  | [] => true
  | c :: _ => !(isDigitCh c || c = '.')

mutual

/-- Fuel sufficient for `parseVal` on a rendering of `j`. -/
def fsize : Json → Nat
  | .str _ => 1
  | .num _ => 1
  | .bool _ => 1
  | .arr [] => 1
  | .arr (x :: xs) => 1 + lsizeItems x xs
  | .obj [] => 1
  | .obj (f :: fs) => 1 + lsizeFields f fs
termination_by j => sizeOf j

/-- Fuel sufficient for `parseItems` on rendered items. -/
def lsizeItems : Json → List Json → Nat
  | x, [] => 1 + fsize x
  | x, y :: ys => 1 + fsize x + lsizeItems y ys
termination_by x xs => sizeOf x + sizeOf xs

/-- Fuel sufficient for `parseFields` on rendered members. -/
def lsizeFields : (String × Json) → List (String × Json) → Nat
  | (_, v), [] => 1 + fsize v
  | (_, v), f :: fs => 1 + fsize v + lsizeFields f fs
termination_by f fs => sizeOf f + sizeOf fs

end

/-! ### Filename derivation -/

/-- The sanitizing step as a single character-wise map. -/
theorem sanitizeName_eq (s : String) :
    sanitizeName s = ⟨s.data.map (fun c => if c = ' ' ∨ c = '/' then '_' else c)⟩ := by
  show (⟨(s.data.map (fun c => if c = ' ' then '_' else c)).map
          (fun c => if c = '/' then '_' else c)⟩ : String) = _
  rw [List.map_map]
  congr 1
  refine List.map_congr_left fun c _ => ?_
  by_cases h1 : c = ' '
  · simp [h1]
  · by_cases h2 : c = '/' <;> simp [h1, h2, Function.comp]

/-- Sanitizing an already sanitized name changes nothing. -/
theorem sanitizeName_idem (n : String) :
    sanitizeName (sanitizeName n) = sanitizeName n := by
  rw [sanitizeName_eq (sanitizeName n), sanitizeName_eq n]
  show (⟨(n.data.map (fun c => if c = ' ' ∨ c = '/' then '_' else c)).map
          (fun c => if c = ' ' ∨ c = '/' then '_' else c)⟩ : String) = _
  rw [List.map_map]
  congr 1
  refine List.map_congr_left fun c _ => ?_
  by_cases h : c = ' ' ∨ c = '/' <;> simp [h, Function.comp]

/-- Looking up any key other than `"category"` in a metadata dictionary
does not depend on the category value. -/
theorem lookup_skip_category (k : String) (hk : (k == "category") = false)
    (v1 v2 v3 v4 c c' v6 v7 v8 v9 : Json) :
    List.lookup k [("name", v1), ("author", v2), ("description", v3),
        ("version", v4), ("category", c), ("tags", v6),
        ("created_date", v7), ("modified_date", v8), ("plugin_version", v9)]
      = List.lookup k [("name", v1), ("author", v2), ("description", v3),
        ("version", v4), ("category", c'), ("tags", v6),
        ("created_date", v7), ("modified_date", v8), ("plugin_version", v9)] := by
  simp only [List.lookup, hk]

/-! ### The claims -/

/-- C1 (amended): for every builder call, the `parameters` key list is
exactly the fixed 23-field scalar schema, followed by `gender_balance` and
then `voice_types` exactly when the corresponding optional argument is
truthy (supplied, non-`None` and non-empty — not merely non-`None`), and
`metadata.name` equals the input name verbatim. -/
theorem c1_param_key_schema (a : GenderPresets.Args) (clock : Nat → String) (t : Nat) :
    ∃ ps, (GenderPresets.create_preset a clock t).getObj "parameters" = some (.obj ps)
      ∧ ps.map Prod.fst = schemaKeys
          ++ (if truthy a.gender_balance then ["gender_balance"] else [])
          ++ (if truthy a.voice_types then ["voice_types"] else [])
      ∧ metaOf (GenderPresets.create_preset a clock t) "name" = some (.str a.name) := by
  refine ⟨_, rfl, ?_, rfl⟩
  cases hg : truthy a.gender_balance <;> cases hv : truthy a.voice_types <;> rfl

/-- C1 counterexample: supplying `voice_types` as a non-`None` empty
dictionary leaves the `voice_types` key absent from `parameters`, refuting
presence-iff-supplied-non-`None` (Python `if voice_types:` is truthiness). -/
theorem c1_cex_empty_dict :
    emptyVTArgs.voice_types = some [] ∧
    paramOf (GenderPresets.create_preset emptyVTArgs clockT 0) "voice_types" = none :=
  ⟨rfl, rfl⟩

/-- C2 (amended): each builder sets `created_date` from a first clock read
and `modified_date` from an immediately following second read; the two
fields coincide whenever the clock returns the same value twice, but the
code performs two reads, so identity is not guaranteed for any input. -/
theorem c2_two_clock_reads (a : GenderPresets.Args) (b : AdditionalPresets.Args)
    (clock : Nat → String) (t : Nat) :
    metaOf (GenderPresets.create_preset a clock t) "created_date" = some (.str (clock t)) ∧
    metaOf (GenderPresets.create_preset a clock t) "modified_date" = some (.str (clock (t+1))) ∧
    metaOf (AdditionalPresets.create_preset b clock t) "created_date" = some (.str (clock t)) ∧
    metaOf (AdditionalPresets.create_preset b clock t) "modified_date" = some (.str (clock (t+1))) ∧
    (clock t = clock (t+1) →
      metaOf (GenderPresets.create_preset a clock t) "created_date"
        = metaOf (GenderPresets.create_preset a clock t) "modified_date") := by
  refine ⟨rfl, rfl, rfl, rfl, fun h => ?_⟩
  show some (Json.str (clock t)) = some (Json.str (clock (t+1)))
  rw [h]

/-- C2 witness: with a constant clock the two timestamps agree. -/
theorem c2_witness :
    metaOf (GenderPresets.create_preset sampleArgs clockT 0) "created_date"
      = metaOf (GenderPresets.create_preset sampleArgs clockT 0) "modified_date" :=
  (c2_two_clock_reads sampleArgs sampleAPArgs clockT 0).2.2.2.2 rfl

/-- C2 counterexample: with a clock that advances between the two reads,
`created_date` and `modified_date` differ, so the two timestamps are not
identical for every construction. -/
theorem c2_cex_distinct_reads :
    metaOf (GenderPresets.create_preset sampleArgs clockAB 0) "created_date" = some (.str "A") ∧
    metaOf (GenderPresets.create_preset sampleArgs clockAB 0) "modified_date" = some (.str "B") ∧
    ("A" : String) ≠ "B" :=
  ⟨rfl, rfl, by decide⟩

/-- C3 (confirmed): the artifact identifier is a pure function of the
record's display name with the fixed `.choirv2` extension appended; the
sanitizing step is idempotent; and it maps every space and every `/` of
the name to an underscore, leaving all other characters unchanged. -/
theorem c3_filename_rule :
    (∀ p n, presetName p = some n →
       GenderPresets.preset_filename p = some (sanitizeName n ++ ".choirv2")) ∧
    (∀ n, sanitizeName (sanitizeName n) = sanitizeName n) ∧
    (∀ n, (sanitizeName n).data
        = n.data.map (fun c => if c = ' ' ∨ c = '/' then '_' else c)) := by
  refine ⟨?_, sanitizeName_idem, fun n => congrArg String.data (sanitizeName_eq n)⟩
  intro p n h
  simp [GenderPresets.preset_filename, h]

/-- C3 witness: the derivation applied to a concrete built record. -/
theorem c3_witness :
    GenderPresets.preset_filename (GenderPresets.create_preset sampleArgs clockT 0)
      = some (sanitizeName "Sample" ++ ".choirv2") :=
  c3_filename_rule.1 _ "Sample" rfl

/-- C6 (confirmed): the first male catalog entry is named "Male 1: Bass"
with `num_voices = 4`, `warmth = 70`, `brightness = 20` (as values,
`70 == 70.0`), and the writer derives `Male_1:_Bass.choirv2` for it:
spaces become underscores, the colon is untouched, the fixed extension is
appended. -/
theorem c6_male1_example (clock : Nat → String) (t : Nat) :
    ∃ a rest, GenderPresets.maleArgs = a :: rest
      ∧ a.name = "Male 1: Bass"
      ∧ paramOf (GenderPresets.create_preset a clock t) "num_voices" = some (.num (.int 4))
      ∧ paramOf (GenderPresets.create_preset a clock t) "warmth" = some (.num (.int 70))
      ∧ (JNum.int 70).toRat = (70 : ℚ)
      ∧ paramOf (GenderPresets.create_preset a clock t) "brightness" = some (.num (.int 20))
      ∧ (JNum.int 20).toRat = (20 : ℚ)
      ∧ GenderPresets.preset_filename (GenderPresets.create_preset a clock t)
          = some "Male_1:_Bass.choirv2" := by
  refine ⟨_, _, rfl, rfl, rfl, rfl, by norm_num [JNum.toRat], rfl, by norm_num [JNum.toRat], rfl⟩

/-- C7 (confirmed): a builder call supplying only the five required
arguments yields the documented default parameter values, in both scripts. -/
theorem c7_default_values (n d l m ly : String) (clock : Nat → String) (t : Nat) :
    paramOf (GenderPresets.create_preset (GenderPresets.requiredOnly n d l m ly) clock t)
      "num_voices" = some (.num (.int 8)) ∧
    paramOf (GenderPresets.create_preset (GenderPresets.requiredOnly n d l m ly) clock t)
      "master_gain" = some (.num (.float (-30) 1)) ∧
    paramOf (GenderPresets.create_preset (GenderPresets.requiredOnly n d l m ly) clock t)
      "formant_mix" = some (.num (.int 80)) ∧
    paramOf (GenderPresets.create_preset (GenderPresets.requiredOnly n d l m ly) clock t)
      "subharmonic_mix" = some (.num (.int 20)) ∧
    paramOf (GenderPresets.create_preset (GenderPresets.requiredOnly n d l m ly) clock t)
      "stereo_width" = some (.num (.int 75)) ∧
    paramOf (GenderPresets.create_preset (GenderPresets.requiredOnly n d l m ly) clock t)
      "vibrato_rate" = some (.num (.float 60 1)) ∧
    paramOf (GenderPresets.create_preset (GenderPresets.requiredOnly n d l m ly) clock t)
      "vibrato_depth" = some (.num (.float 300 1)) ∧
    paramOf (GenderPresets.create_preset (GenderPresets.requiredOnly n d l m ly) clock t)
      "reverb_mix" = some (.num (.int 25)) ∧
    paramOf (GenderPresets.create_preset (GenderPresets.requiredOnly n d l m ly) clock t)
      "reverb_size" = some (.num (.int 50)) ∧
    paramOf (GenderPresets.create_preset (GenderPresets.requiredOnly n d l m ly) clock t)
      "attack_time" = some (.num (.int 50)) ∧
    paramOf (GenderPresets.create_preset (GenderPresets.requiredOnly n d l m ly) clock t)
      "release_time" = some (.num (.int 200)) ∧
    paramOf (GenderPresets.create_preset (GenderPresets.requiredOnly n d l m ly) clock t)
      "pitch_variation" = some (.num (.int 10)) ∧
    paramOf (GenderPresets.create_preset (GenderPresets.requiredOnly n d l m ly) clock t)
      "timing_variation" = some (.num (.int 5)) ∧
    paramOf (GenderPresets.create_preset (GenderPresets.requiredOnly n d l m ly) clock t)
      "formant_variation" = some (.num (.int 15)) ∧
    paramOf (GenderPresets.create_preset (GenderPresets.requiredOnly n d l m ly) clock t)
      "breathiness" = some (.num (.int 10)) ∧
    paramOf (GenderPresets.create_preset (GenderPresets.requiredOnly n d l m ly) clock t)
      "warmth" = some (.num (.int 20)) ∧
    paramOf (GenderPresets.create_preset (GenderPresets.requiredOnly n d l m ly) clock t)
      "brightness" = some (.num (.int 50)) ∧
    paramOf (AdditionalPresets.create_preset (AdditionalPresets.requiredOnly n d l m ly) clock t)
      "num_voices" = some (.num (.int 8)) ∧
    paramOf (AdditionalPresets.create_preset (AdditionalPresets.requiredOnly n d l m ly) clock t)
      "master_gain" = some (.num (.float (-30) 1)) ∧
    paramOf (AdditionalPresets.create_preset (AdditionalPresets.requiredOnly n d l m ly) clock t)
      "formant_mix" = some (.num (.int 80)) ∧
    paramOf (AdditionalPresets.create_preset (AdditionalPresets.requiredOnly n d l m ly) clock t)
      "subharmonic_mix" = some (.num (.int 20)) ∧
    paramOf (AdditionalPresets.create_preset (AdditionalPresets.requiredOnly n d l m ly) clock t)
      "stereo_width" = some (.num (.int 75)) ∧
    paramOf (AdditionalPresets.create_preset (AdditionalPresets.requiredOnly n d l m ly) clock t)
      "vibrato_rate" = some (.num (.float 60 1)) ∧
    paramOf (AdditionalPresets.create_preset (AdditionalPresets.requiredOnly n d l m ly) clock t)
      "vibrato_depth" = some (.num (.float 300 1)) ∧
    paramOf (AdditionalPresets.create_preset (AdditionalPresets.requiredOnly n d l m ly) clock t)
      "reverb_mix" = some (.num (.int 25)) ∧
    paramOf (AdditionalPresets.create_preset (AdditionalPresets.requiredOnly n d l m ly) clock t)
      "reverb_size" = some (.num (.int 50)) ∧
    paramOf (AdditionalPresets.create_preset (AdditionalPresets.requiredOnly n d l m ly) clock t)
      "attack_time" = some (.num (.int 50)) ∧
    paramOf (AdditionalPresets.create_preset (AdditionalPresets.requiredOnly n d l m ly) clock t)
      "release_time" = some (.num (.int 200)) ∧
    paramOf (AdditionalPresets.create_preset (AdditionalPresets.requiredOnly n d l m ly) clock t)
      "pitch_variation" = some (.num (.int 10)) ∧
    paramOf (AdditionalPresets.create_preset (AdditionalPresets.requiredOnly n d l m ly) clock t)
      "timing_variation" = some (.num (.int 5)) ∧
    paramOf (AdditionalPresets.create_preset (AdditionalPresets.requiredOnly n d l m ly) clock t)
      "formant_variation" = some (.num (.int 15)) ∧
    paramOf (AdditionalPresets.create_preset (AdditionalPresets.requiredOnly n d l m ly) clock t)
      "breathiness" = some (.num (.int 10)) ∧
    paramOf (AdditionalPresets.create_preset (AdditionalPresets.requiredOnly n d l m ly) clock t)
      "warmth" = some (.num (.int 20)) ∧
    paramOf (AdditionalPresets.create_preset (AdditionalPresets.requiredOnly n d l m ly) clock t)
      "brightness" = some (.num (.int 50)) := by
  exact ⟨rfl, rfl, rfl, rfl, rfl, rfl, rfl, rfl, rfl, rfl, rfl, rfl, rfl, rfl, rfl, rfl, rfl,
         rfl, rfl, rfl, rfl, rfl, rfl, rfl, rfl, rfl, rfl, rfl, rfl, rfl, rfl, rfl, rfl, rfl⟩

/-- C8 (confirmed): every record produced by either builder carries
`is_factory = true` and `is_read_only = true`; no input can change them. -/
theorem c8_provenance_flags :
    (∀ (a : GenderPresets.Args) (clock : Nat → String) (t : Nat),
       (GenderPresets.create_preset a clock t).getObj "is_factory" = some (.bool true) ∧
       (GenderPresets.create_preset a clock t).getObj "is_read_only" = some (.bool true)) ∧
    (∀ (b : AdditionalPresets.Args) (clock : Nat → String) (t : Nat),
       (AdditionalPresets.create_preset b clock t).getObj "is_factory" = some (.bool true) ∧
       (AdditionalPresets.create_preset b clock t).getObj "is_read_only" = some (.bool true)) :=
  ⟨fun _ _ _ => ⟨rfl, rfl⟩, fun _ _ _ => ⟨rfl, rfl⟩⟩

/-- C10 (confirmed): the two writers are extensionally equal, and on common
arguments (with no optional maps) the two builders agree on `parameters`
and the provenance flags, and on every metadata key except `category`,
which is `"Factory"` in `additional_presets.py` and `"Gender"` in
`generate_gender_presets.py`. -/
theorem c10_duplicated_pipeline :
    (∀ fs p, AdditionalPresets.save_preset fs p = GenderPresets.save_preset fs p) ∧
    (∀ p, AdditionalPresets.preset_filename p = GenderPresets.preset_filename p) ∧
    (∀ (a : AdditionalPresets.Args) (clock : Nat → String) (t : Nat),
      (AdditionalPresets.create_preset a clock t).getObj "parameters"
        = (GenderPresets.create_preset (toGPArgs a) clock t).getObj "parameters" ∧
      (AdditionalPresets.create_preset a clock t).getObj "is_factory"
        = (GenderPresets.create_preset (toGPArgs a) clock t).getObj "is_factory" ∧
      (AdditionalPresets.create_preset a clock t).getObj "is_read_only"
        = (GenderPresets.create_preset (toGPArgs a) clock t).getObj "is_read_only" ∧
      (∀ k, k ≠ "category" →
        metaOf (AdditionalPresets.create_preset a clock t) k
          = metaOf (GenderPresets.create_preset (toGPArgs a) clock t) k) ∧
      metaOf (AdditionalPresets.create_preset a clock t) "category" = some (.str "Factory") ∧
      metaOf (GenderPresets.create_preset (toGPArgs a) clock t) "category" = some (.str "Gender")) := by
  refine ⟨fun fs p => rfl, fun p => rfl, fun a clock t => ⟨rfl, rfl, rfl, ?_, rfl, rfl⟩⟩
  intro k hk
  exact lookup_skip_category k (beq_eq_false_iff_ne.mpr hk) _ _ _ _ _ _ _ _ _ _

/-- C10 witness: the agreement instantiated at a concrete call and key. -/
theorem c10_witness :
    metaOf (AdditionalPresets.create_preset sampleAPArgs clockT 0) "author"
      = metaOf (GenderPresets.create_preset (toGPArgs sampleAPArgs) clockT 0) "author" ∧
    (AdditionalPresets.create_preset sampleAPArgs clockT 0).getObj "parameters"
      = (GenderPresets.create_preset (toGPArgs sampleAPArgs) clockT 0).getObj "parameters" :=
  ⟨(c10_duplicated_pipeline.2.2 sampleAPArgs clockT 0).2.2.2.1 "author" (by decide),
   (c10_duplicated_pipeline.2.2 sampleAPArgs clockT 0).1⟩

/-! ### The collision policy of the writer -/

namespace GenderPresets

/-- If no record of the list derives `path`, nothing survives there. -/
theorem lastWrite_of_no_match (path : String) :
    ∀ l : List Json, (∀ p ∈ l, preset_filename p ≠ some path) →
      lastWrite path l = none := by
  intro l
  induction l with
  | nil => intro _; rfl
  | cons p ps ih =>
      intro h
      have hps := ih fun q hq => h q (List.mem_cons_of_mem p hq)
      have hp := h p (List.mem_cons_self p ps)
      simp [lastWrite, hps, hp]

/-- `lastWrite` over an appended batch prefers the later part. -/
theorem lastWrite_append (path : String) :
    ∀ l1 l2 : List Json,
      lastWrite path (l1 ++ l2)
        = match lastWrite path l2 with
          | some q => some q
          | none => lastWrite path l1 := by
  intro l1 l2
  induction l1 with
  | nil => cases h : lastWrite path l2 <;> simp [lastWrite, h]
  | cons p ps ih =>
      show lastWrite path (p :: (ps ++ l2)) = _
      rw [lastWrite, ih]
      cases h : lastWrite path l2 <;> cases h2 : lastWrite path ps <;>
        simp [lastWrite, h, h2]

/-- After a successful run, the artifact stored at `path` is the
serialization of the last record in assembly order that derives `path`
(if any; otherwise the store is untouched there). -/
theorem run_batch_lookup :
    ∀ (l : List Json) (fs fs' : String → Option String),
      run_batch fs l = some fs' → ∀ path,
        fs' path = match lastWrite path l with
          | some q => some (json_dumps q)
          | none => fs path := by
  intro l
  induction l with
  | nil =>
      intro fs fs' h path
      cases h
      rfl
  | cons p ps ih =>
      intro fs fs' h path
      rw [run_batch] at h
      cases hfn : preset_filename p with
      | none => rw [save_preset, hfn] at h; cases h
      | some fn =>
          rw [save_preset, hfn] at h
          have hrec := ih _ _ h path
          cases hlw : lastWrite path ps with
          | some q => simp only [lastWrite, hlw]; rw [hrec, hlw]
          | none =>
              rw [hrec, hlw]
              simp only [lastWrite, hlw, hfn]
              by_cases hp : path = fn
              · subst hp; simp
              · have : ¬ (some fn = some path) := by
                  intro hc
                  exact hp (Option.some.inj hc).symm
                simp [hp, this]

/-- Every record with a derivable filename saves successfully, so a batch
of such records runs to completion. -/
theorem run_batch_total :
    ∀ (l : List Json) (fs : String → Option String),
      (∀ p ∈ l, (preset_filename p).isSome) →
      ∃ fs', run_batch fs l = some fs' := by
  intro l
  induction l with
  | nil => exact fun fs _ => ⟨fs, rfl⟩
  | cons p ps ih =>
      intro fs h
      have hp := h p (List.mem_cons_self p ps)
      cases hfn : preset_filename p with
      | none => rw [hfn] at hp; cases hp
      | some fn =>
          obtain ⟨fs', hfs'⟩ :=
            ih (fun q => if q = fn then some (json_dumps p) else fs q)
              (fun q hq => h q (List.mem_cons_of_mem p hq))
          exact ⟨fs', by rw [run_batch, save_preset, hfn]; exact hfs'⟩

end GenderPresets

/-- C5 (confirmed): writing a batch sequentially in assembly order, if a
later record (index `j`, the last deriving `path`) collides with an
earlier one (index `i`), the run completes without error and the artifact
stored at `path` is the serialization of the later record, not the
earlier one. -/
theorem c5_last_write_wins (fs : String → Option String) (l : List Json)
    (i j : Nat) (hi : i < l.length) (hj : j < l.length) (hij : i < j)
    (path : String)
    (hfi : GenderPresets.preset_filename (l.get ⟨i, hi⟩) = some path)
    (hfj : GenderPresets.preset_filename (l.get ⟨j, hj⟩) = some path)
    (hne : l.get ⟨i, hi⟩ ≠ l.get ⟨j, hj⟩)
    (hlater : ∀ p ∈ l.drop (j+1), GenderPresets.preset_filename p ≠ some path)
    (hall : ∀ p ∈ l, (GenderPresets.preset_filename p).isSome) :
    ∃ fs', GenderPresets.run_batch fs l = some fs'
      ∧ fs' path = some (json_dumps (l.get ⟨j, hj⟩))
      ∧ (json_dumps (l.get ⟨i, hi⟩) ≠ json_dumps (l.get ⟨j, hj⟩) →
          fs' path ≠ some (json_dumps (l.get ⟨i, hi⟩))) := by
  obtain ⟨fs', hrun⟩ := GenderPresets.run_batch_total l fs hall
  have hlast : GenderPresets.lastWrite path l = some (l.get ⟨j, hj⟩) := by
    have hb : l.get ⟨j, hj⟩ = l[j] := rfl
    rw [hb] at hfj ⊢
    have hsplit : l = l.take (j+1) ++ l.drop (j+1) := (List.take_append_drop (j+1) l).symm
    have htake : l.take (j+1) = l.take j ++ [l[j]] := by
      rw [List.take_succ, List.getElem?_eq_getElem hj]
      rfl
    have hdrop : GenderPresets.lastWrite path (l.drop (j+1)) = none :=
      GenderPresets.lastWrite_of_no_match path _ hlater
    conv_lhs => rw [hsplit]
    rw [GenderPresets.lastWrite_append, hdrop, htake,
        GenderPresets.lastWrite_append]
    simp [GenderPresets.lastWrite, hfj]
  have hval := GenderPresets.run_batch_lookup l fs fs' hrun path
  rw [hlast] at hval
  refine ⟨fs', hrun, hval, fun hneq hcontra => hneq ?_⟩
  rw [hval] at hcontra
  exact (Option.some.inj hcontra).symm

/-- C5 witness: two builder outputs sharing the name `Dup`; after the run
the artifact under `Dup.choirv2` is the later record's serialization. -/
theorem c5_witness :
    ∃ fs', GenderPresets.run_batch (fun _ => none)
        [GenderPresets.create_preset collideArgs1 clockT 0,
         GenderPresets.create_preset collideArgs2 clockT 2] = some fs'
      ∧ fs' "Dup.choirv2"
          = some (json_dumps (GenderPresets.create_preset collideArgs2 clockT 2))
      ∧ (json_dumps (GenderPresets.create_preset collideArgs1 clockT 0)
           ≠ json_dumps (GenderPresets.create_preset collideArgs2 clockT 2) →
          fs' "Dup.choirv2"
            ≠ some (json_dumps (GenderPresets.create_preset collideArgs1 clockT 0))) := by
  have hne : GenderPresets.create_preset collideArgs1 clockT 0
      ≠ GenderPresets.create_preset collideArgs2 clockT 2 := by
    intro h
    have h2 : metaOf (GenderPresets.create_preset collideArgs1 clockT 0) "description"
        = metaOf (GenderPresets.create_preset collideArgs2 clockT 2) "description" :=
      congrArg (fun p => metaOf p "description") h
    rw [show metaOf (GenderPresets.create_preset collideArgs1 clockT 0) "description"
          = some (Json.str "one") from rfl,
        show metaOf (GenderPresets.create_preset collideArgs2 clockT 2) "description"
          = some (Json.str "two") from rfl] at h2
    injection h2 with h3
    injection h3 with h4
    exact absurd h4 (by decide)
  refine c5_last_write_wins (fun _ => none) _ 0 1 (by decide) (by decide) (by decide)
    "Dup.choirv2" rfl rfl hne ?_ ?_
  · intro p hp
    cases hp
  · intro p hp
    cases hp with
    | head => rfl
    | tail _ hp2 =>
        cases hp2 with
        | head => rfl
        | tail _ hp3 => cases hp3

/-! ### The authored distribution maps -/

namespace GenderPresets

/-- The `voice_types` entry of a built record is present exactly when the
argument is truthy, and then carries the argument verbatim. -/
theorem paramOf_voice_types (a : Args) (clock : Nat → String) (t : Nat) :
    paramOf (create_preset a clock t) "voice_types"
      = if truthy a.voice_types
        then some (distToJson (a.voice_types.getD [])) else none := by
  obtain ⟨n, d, lg, sm, ly, nv, fm, sb, sw, vr, vd, rm, rs, ak, rl,
    pv, tv, fv, bh, wa, bri, gb, vt, tg⟩ := a
  cases gb with
  | none =>
      cases vt with
      | none => rfl
      | some l => cases l with
        | nil => rfl
        | cons x xs => rfl
  | some g =>
      cases g with
      | nil =>
          cases vt with
          | none => rfl
          | some l => cases l with
            | nil => rfl
            | cons x xs => rfl
      | cons y ys =>
          cases vt with
          | none => rfl
          | some l => cases l with
            | nil => rfl
            | cons x xs => rfl

/-- The `gender_balance` entry of a built record is present exactly when
the argument is truthy, and then carries the argument verbatim. -/
theorem paramOf_gender_balance (a : Args) (clock : Nat → String) (t : Nat) :
    paramOf (create_preset a clock t) "gender_balance"
      = if truthy a.gender_balance
        then some (distToJson (a.gender_balance.getD [])) else none := by
  obtain ⟨n, d, lg, sm, ly, nv, fm, sb, sw, vr, vd, rm, rs, ak, rl,
    pv, tv, fv, bh, wa, bri, gb, vt, tg⟩ := a
  cases gb with
  | none =>
      cases vt with
      | none => rfl
      | some l => cases l with
        | nil => rfl
        | cons x xs => rfl
  | some g =>
      cases g with
      | nil =>
          cases vt with
          | none => rfl
          | some l => cases l with
            | nil => rfl
            | cons x xs => rfl
      | cons y ys =>
          cases vt with
          | none => rfl
          | some l => cases l with
            | nil => rfl
            | cons x xs => rfl

/-- Every record of a built catalog is a builder output on a catalog
argument record. -/
theorem buildCatalog_mem (clock : Nat → String) :
    ∀ (l : List Args) (t : Nat) (p : Json), p ∈ buildCatalog clock t l →
      ∃ a ∈ l, ∃ u, p = create_preset a clock u := by
  intro l
  induction l with
  | nil => intro t p hp; cases hp
  | cons a l ih =>
      intro t p hp
      rw [buildCatalog] at hp
      cases hp with
      | head => exact ⟨a, List.mem_cons_self a l, t, rfl⟩
      | tail _ h =>
          obtain ⟨b, hb, u, hu⟩ := ih (t+2) p h
          exact ⟨b, List.mem_cons_of_mem a hb, u, hu⟩

/-- Every record of `all_presets` is a builder output on one of the five
catalogs' argument records. -/
theorem mem_all_presets (clock : Nat → String) (t : Nat) (p : Json)
    (hp : p ∈ all_presets clock t) :
    ∃ a ∈ gArgsAll, ∃ u, p = create_preset a clock u := by
  have split : ∀ {x : Json} {l1 l2 : List Args},
      (∃ a ∈ l1, ∃ u, x = create_preset a clock u) ∨
      (∃ a ∈ l2, ∃ u, x = create_preset a clock u) →
      ∃ a ∈ l1 ++ l2, ∃ u, x = create_preset a clock u := by
    rintro x l1 l2 (⟨a, ha, u, hu⟩ | ⟨a, ha, u, hu⟩)
    · exact ⟨a, List.mem_append_left l2 ha, u, hu⟩
    · exact ⟨a, List.mem_append_right l1 ha, u, hu⟩
  rw [all_presets] at hp
  rcases List.mem_append.mp hp with hp4 | hnb
  · rcases List.mem_append.mp hp4 with hp3 | hmx
    · rcases List.mem_append.mp hp3 with hp2 | hch
      · rcases List.mem_append.mp hp2 with hml | hfm
        · exact split (Or.inl (split
            (Or.inl (split (Or.inl (split
              (Or.inl (buildCatalog_mem clock maleArgs t p hml))))))))
        · exact split (Or.inl (split
            (Or.inl (split (Or.inl (split
              (Or.inr (buildCatalog_mem clock femaleArgs (t+16) p hfm))))))))
      · exact split (Or.inl (split
          (Or.inl (split
            (Or.inr (buildCatalog_mem clock childArgs (t+32) p hch))))))
    · exact split (Or.inl (split
        (Or.inr (buildCatalog_mem clock mixedArgs (t+40) p hmx))))
  · exact split
      (Or.inr (buildCatalog_mem clock nonbinaryArgs (t+60) p hnb))

end GenderPresets

/-- Every authored distribution's weights (when supplied) are integers,
the voice-type weights sum to 100, and the male and female balance
weights sum to 100, across all five catalogs. -/
theorem catalog_weight_check : ∀ a ∈ GenderPresets.gArgsAll,
    (truthy a.voice_types = true →
      (a.voice_types.getD []).all isIntWeight = true
        ∧ intSum (a.voice_types.getD []) = 100) ∧
    (truthy a.gender_balance = true →
      (a.gender_balance.getD []).all isIntWeight = true
        ∧ intAt (a.gender_balance.getD []) "male"
            + intAt (a.gender_balance.getD []) "female" = 100) := by
  decide

/-- The rational sum of a rendered all-integer distribution is the cast
of its integer sum. -/
theorem distSum_of_int : ∀ m : List (String × JNum), m.all isIntWeight = true →
    distSum (m.map (fun kv => (kv.1, Json.num kv.2))) = ((intSum m : ℤ) : ℚ) := by
  intro m
  induction m with
  | nil => intro _; simp [distSum, intSum]
  | cons kv rest ih =>
      intro h
      rw [List.all_cons, Bool.and_eq_true] at h
      obtain ⟨k, v⟩ := kv
      cases v with
      | float m e => exact absurd h.1 (by simp [isIntWeight])
      | int n =>
          have hrest := ih h.2
          simp only [distSum, List.map_cons, List.sum_cons, intSum] at hrest ⊢
          rw [hrest]
          push_cast [JNum.toRat]
          ring

/-- The rational weight at `k` of a rendered all-integer distribution is
the cast of its integer weight. -/
theorem numAt_of_int : ∀ (m : List (String × JNum)) (k : String),
    m.all isIntWeight = true →
    numAt (m.map (fun kv => (kv.1, Json.num kv.2))) k = ((intAt m k : ℤ) : ℚ) := by
  intro m
  induction m with
  | nil => intro k _; simp [numAt, intAt, List.lookup]
  | cons kv rest ih =>
      intro k h
      rw [List.all_cons, Bool.and_eq_true] at h
      obtain ⟨k1, v⟩ := kv
      by_cases hk : (k == k1) = true
      · cases v with
        | float m e => exact absurd h.1 (by simp [isIntWeight])
        | int n => simp [numAt, intAt, List.lookup, hk, JNum.toRat]
      · have hk' : (k == k1) = false := by simp_all
        have := ih k h.2
        simp only [numAt, intAt, List.lookup, List.map_cons, hk'] at this ⊢
        exact this

/-- C9 (confirmed): for every record of the five authored catalogs, a
supplied `voice_types` map has weights summing exactly to 100, and a
supplied `gender_balance` map has its `male` and `female` weights summing
exactly to 100. -/
theorem c9_distribution_sums (clock : Nat → String) (t : Nat) (p : Json)
    (hp : p ∈ GenderPresets.all_presets clock t) :
    (∀ fields, paramOf p "voice_types" = some (.obj fields) → distSum fields = 100) ∧
    (∀ fields, paramOf p "gender_balance" = some (.obj fields) →
        numAt fields "male" + numAt fields "female" = 100) := by
  obtain ⟨a, ha, u, rfl⟩ := GenderPresets.mem_all_presets clock t p hp
  have hcheck := catalog_weight_check a ha
  constructor
  · intro fields hfield
    rw [GenderPresets.paramOf_voice_types] at hfield
    cases htr : truthy a.voice_types with
    | false => rw [htr] at hfield; cases hfield
    | true =>
        rw [htr] at hfield
        simp only [if_true, distToJson, Option.some.injEq] at hfield
        obtain ⟨hint, hsum⟩ := hcheck.1 htr
        injection hfield with hfield2
        rw [← hfield2, distSum_of_int _ hint, hsum]
        norm_num
  · intro fields hfield
    rw [GenderPresets.paramOf_gender_balance] at hfield
    cases htr : truthy a.gender_balance with
    | false => rw [htr] at hfield; cases hfield
    | true =>
        rw [htr] at hfield
        simp only [if_true, distToJson, Option.some.injEq] at hfield
        obtain ⟨hint, hsum⟩ := hcheck.2 htr
        injection hfield with hfield2
        rw [← hfield2, numAt_of_int _ _ hint, numAt_of_int _ _ hint, ← Int.cast_add, hsum]
        norm_num

/-- C9 witness: the sums instantiated on concrete catalog records (the
first male preset's voice types; the first mixed preset's balance). -/
theorem c9_witness :
    distSum [("bass", Json.num (JNum.int 100))] = 100 ∧
    numAt [("male", Json.num (JNum.int 50)), ("female", Json.num (JNum.int 50))] "male"
      + numAt [("male", Json.num (JNum.int 50)), ("female", Json.num (JNum.int 50))] "female"
      = 100 := by
  constructor
  · obtain ⟨p, hmem, hvt⟩ : ∃ p, p ∈ GenderPresets.all_presets clockT 0
        ∧ paramOf p "voice_types" = some (.obj [("bass", Json.num (JNum.int 100))]) :=
      ⟨_, List.mem_append_left _ (List.mem_append_left _ (List.mem_append_left _
          (List.mem_append_left _ (List.mem_cons_self _ _)))), rfl⟩
    exact (c9_distribution_sums clockT 0 p hmem).1 _ hvt
  · obtain ⟨p, hmem, hgb⟩ : ∃ p, p ∈ GenderPresets.all_presets clockT 0
        ∧ paramOf p "gender_balance"
            = some (.obj [("male", Json.num (JNum.int 50)), ("female", Json.num (JNum.int 50))]) :=
      ⟨_, List.mem_append_left _ (List.mem_append_right _ (List.mem_cons_self _ _)), rfl⟩
    exact (c9_distribution_sums clockT 0 p hmem).2 _ hgb

/-! ### Digits: printing and reading are inverse -/

/-- The digit character of `d < 10` is a digit and carries `d`. -/
theorem digitCh_spec (d : Nat) (h : d < 10) :
    isDigitCh (digitCh d) = true ∧ (digitCh d).toNat - 48 = d := by
  interval_cases d <;> exact ⟨by decide, by decide⟩

/-- The accumulator of `natCharsGo` rides along on the right. -/
theorem natCharsGo_acc : ∀ (fuel n : Nat) (acc : List Char),
    natCharsGo fuel n acc = natCharsGo fuel n [] ++ acc := by
  intro fuel
  induction fuel with
  | zero => intro n acc; rfl
  | succ f ih =>
      intro n acc
      by_cases h : n < 10
      · simp [natCharsGo, h]
      · rw [natCharsGo, natCharsGo, if_neg h, if_neg h, ih (n / 10),
            ih (n / 10) [digitCh (n % 10)], List.append_assoc]
        rfl

/-- Any sufficient fuel computes the same digits. -/
theorem natCharsGo_fuel : ∀ (n f1 f2 : Nat), n < f1 → n < f2 →
    natCharsGo f1 n [] = natCharsGo f2 n [] := by
  intro n
  induction n using Nat.strong_induction_on with
  | _ n ih =>
      intro f1 f2 h1 h2
      match f1, h1 with
      | f1 + 1, _ =>
        match f2, h2 with
        | f2 + 1, _ =>
          by_cases h : n < 10
          · simp [natCharsGo, h]
          · rw [natCharsGo, natCharsGo, if_neg h, if_neg h,
                natCharsGo_acc f1, natCharsGo_acc f2,
                ih (n / 10) (by omega) f1 f2 (by omega) (by omega)]

/-- One step of the digit extractor at successor fuel (definitional). -/
theorem natCharsGo_succ (fuel n : Nat) (acc : List Char) :
    natCharsGo (fuel + 1) n acc
      = if n < 10 then digitCh n :: acc
        else natCharsGo fuel (n / 10) (digitCh (n % 10) :: acc) := rfl

/-- One unfolding of `natChars` in last-digit form. -/
theorem natChars_unfold (n : Nat) :
    natChars n = if n < 10 then [digitCh n]
                 else natChars (n / 10) ++ [digitCh (n % 10)] := by
  simp only [natChars]
  rw [natCharsGo_succ]
  by_cases h : n < 10
  · simp [h]
  · rw [if_neg h, if_neg h, natCharsGo_acc n (n / 10),
        natCharsGo_fuel (n / 10) n (n / 10 + 1) (by omega) (by omega)]

/-- A digit run is never empty. -/
theorem natChars_ne_nil (n : Nat) : natChars n ≠ [] := by
  rw [natChars_unfold]
  by_cases h : n < 10 <;> simp [h]

/-- Every character of a digit run is a digit. -/
theorem natChars_digits (n : Nat) : ∀ c ∈ natChars n, isDigitCh c = true := by
  induction n using Nat.strong_induction_on with
  | _ n ih =>
      intro c hc
      rw [natChars_unfold] at hc
      by_cases h : n < 10
      · rw [if_pos h] at hc
        rw [List.mem_singleton] at hc
        subst hc
        exact (digitCh_spec n h).1
      · rw [if_neg h] at hc
        rcases List.mem_append.mp hc with h1 | h2
        · exact ih (n / 10) (by omega) c h1
        · rw [List.mem_singleton] at h2
          subst h2
          exact (digitCh_spec (n % 10) (by omega)).1

/-- `digitsVal` with a left accumulator. -/
theorem digitsVal_foldl (ds : List Char) : ∀ acc : Nat,
    ds.foldl (fun a c => 10 * a + (c.toNat - 48)) acc
      = acc * 10 ^ ds.length + digitsVal ds := by
  induction ds with
  | nil => intro acc; simp [digitsVal]
  | cons c t ih =>
      intro acc
      rw [List.foldl_cons, ih]
      have hv : digitsVal (c :: t) = (c.toNat - 48) * 10 ^ t.length + digitsVal t := by
        rw [digitsVal, List.foldl_cons, ih]
        simp
      rw [hv, List.length_cons, pow_succ]
      ring

/-- `digitsVal` over an append. -/
theorem digitsVal_append (ds1 ds2 : List Char) :
    digitsVal (ds1 ++ ds2) = digitsVal ds1 * 10 ^ ds2.length + digitsVal ds2 := by
  rw [digitsVal, List.foldl_append, digitsVal_foldl]
  rfl

/-- Reading back the digits of `n` yields `n`. -/
theorem digitsVal_natChars (n : Nat) : digitsVal (natChars n) = n := by
  induction n using Nat.strong_induction_on with
  | _ n ih =>
      rw [natChars_unfold]
      by_cases h : n < 10
      · rw [if_pos h]
        show digitsVal [digitCh n] = n
        have := (digitCh_spec n h).2
        simp [digitsVal, this]
      · rw [if_neg h, digitsVal_append, ih (n / 10) (by omega)]
        have := (digitCh_spec (n % 10) (by omega)).2
        simp [digitsVal, this]
        omega

/-- A run of zeros denotes zero. -/
theorem digitsVal_replicate_zero (z : Nat) :
    digitsVal (List.replicate z '0') = 0 := by
  induction z with
  | zero => rfl
  | succ z ih =>
      rw [List.replicate_succ]
      show digitsVal ('0' :: List.replicate z '0') = 0
      rw [digitsVal, List.foldl_cons]
      show List.foldl _ 0 (List.replicate z '0') = 0
      exact ih

/-- `readDigits` does not move on a non-digit head (or empty input). -/
theorem readDigits_stop {cs : List Char}
    (h : cs = [] ∨ ∃ c t, cs = c :: t ∧ isDigitCh c = false) :
    readDigits cs = ([], cs) := by
  rcases h with rfl | ⟨c, t, rfl, hc⟩
  · rfl
  · simp [readDigits, hc]

/-- A `numStop` remainder is a `readDigits` fixpoint. -/
theorem readDigits_numStop {cs : List Char} (h : numStop cs = true) :
    readDigits cs = ([], cs) := by
  refine readDigits_stop ?_
  cases cs with
  | nil => exact Or.inl rfl
  | cons c t =>
      refine Or.inr ⟨c, t, rfl, ?_⟩
      simp only [numStop, Bool.not_eq_true', Bool.or_eq_false_iff] at h
      exact h.1

/-- `readDigits` consumes exactly a leading digit run. -/
theorem readDigits_run : ∀ (ds rest : List Char),
    (∀ c ∈ ds, isDigitCh c = true) → readDigits rest = ([], rest) →
    readDigits (ds ++ rest) = (ds, rest) := by
  intro ds
  induction ds with
  | nil => intro rest _ h; simpa using h
  | cons c t ih =>
      intro rest hds hrest
      have hc : isDigitCh c = true := hds c (List.mem_cons_self c t)
      have ht := ih rest (fun x hx => hds x (List.mem_cons_of_mem c hx)) hrest
      simp [readDigits, hc, ht]

/-! ### Number round trip -/

/-- `parsePosNum` on a digit run followed by a stopping remainder. -/
theorem parsePosNum_run (ds rest : List Char) (hne : ds ≠ [])
    (hd : ∀ c ∈ ds, isDigitCh c = true) (hstop : numStop rest = true) :
    parsePosNum (ds ++ rest) = some (.int (digitsVal ds), rest) := by
  have hrd : readDigits (ds ++ rest) = (ds, rest) :=
    readDigits_run ds rest hd (readDigits_numStop hstop)
  obtain ⟨c, t, rfl⟩ := List.exists_cons_of_ne_nil hne
  simp only [parsePosNum, hrd]
  cases rest with
  | nil => rfl
  | cons r rs =>
      have hdot : ¬ r = '.' := by
        simp only [numStop, Bool.not_eq_true', Bool.or_eq_false_iff] at hstop
        intro hr
        rw [hr] at hstop
        exact absurd hstop.2 (by decide)
      simp [hdot]

/-- `parsePosNum` on an integer run, a point, a fraction run, and a
stopping remainder. -/
theorem parsePosNum_point (ds1 ds2 rest : List Char)
    (h1 : ds1 ≠ []) (hd1 : ∀ c ∈ ds1, isDigitCh c = true)
    (h2 : ds2 ≠ []) (hd2 : ∀ c ∈ ds2, isDigitCh c = true)
    (hstop : numStop rest = true) :
    parsePosNum (ds1 ++ '.' :: (ds2 ++ rest))
      = some (.float ((digitsVal ds1 * 10 ^ ds2.length + digitsVal ds2 : Nat) : Int)
                ds2.length, rest) := by
  have hrd1 : readDigits (ds1 ++ '.' :: (ds2 ++ rest)) = (ds1, '.' :: (ds2 ++ rest)) :=
    readDigits_run ds1 _ hd1 (readDigits_stop (Or.inr ⟨'.', _, rfl, by decide⟩))
  have hrd2 : readDigits (ds2 ++ rest) = (ds2, rest) :=
    readDigits_run ds2 rest hd2 (readDigits_numStop hstop)
  obtain ⟨c1, t1, rfl⟩ := List.exists_cons_of_ne_nil h1
  obtain ⟨c2, t2, rfl⟩ := List.exists_cons_of_ne_nil h2
  simp only [parsePosNum, hrd1, hrd2]

/-- The structure of a printed float: sign, integer digits, point,
exactly `e` fraction digits, carrying the value `|m|`. -/
theorem floatChars_decomp (m : Int) (e : Nat) :
    ∃ ds1 ds2 : List Char,
      floatChars m e = (if m < 0 then ['-'] else []) ++ ds1 ++ '.' :: ds2
      ∧ ds1 ≠ [] ∧ ds2.length = e
      ∧ (∀ c ∈ ds1, isDigitCh c = true) ∧ (∀ c ∈ ds2, isDigitCh c = true)
      ∧ digitsVal ds1 * 10 ^ e + digitsVal ds2 = m.natAbs := by
  have hpadlen : e + 1 ≤ (List.replicate (e + 1 - (natChars m.natAbs).length) '0'
      ++ natChars m.natAbs).length := by
    rw [List.length_append, List.length_replicate]
    omega
  have hpaddig : ∀ c ∈ List.replicate (e + 1 - (natChars m.natAbs).length) '0'
      ++ natChars m.natAbs, isDigitCh c = true := by
    intro c hc
    rcases List.mem_append.mp hc with h | h
    · rw [List.eq_of_mem_replicate h]; decide
    · exact natChars_digits m.natAbs c h
  have hpadval : digitsVal (List.replicate (e + 1 - (natChars m.natAbs).length) '0'
      ++ natChars m.natAbs) = m.natAbs := by
    rw [digitsVal_append, digitsVal_replicate_zero, digitsVal_natChars]
    simp
  refine ⟨(List.replicate (e + 1 - (natChars m.natAbs).length) '0'
      ++ natChars m.natAbs).take ((List.replicate (e + 1 - (natChars m.natAbs).length) '0'
      ++ natChars m.natAbs).length - e),
    (List.replicate (e + 1 - (natChars m.natAbs).length) '0'
      ++ natChars m.natAbs).drop ((List.replicate (e + 1 - (natChars m.natAbs).length) '0'
      ++ natChars m.natAbs).length - e), rfl, ?_, ?_, ?_, ?_, ?_⟩
  · have : ((List.replicate (e + 1 - (natChars m.natAbs).length) '0'
        ++ natChars m.natAbs).take ((List.replicate (e + 1 - (natChars m.natAbs).length) '0'
        ++ natChars m.natAbs).length - e)).length
        = (List.replicate (e + 1 - (natChars m.natAbs).length) '0'
            ++ natChars m.natAbs).length - e := by
      rw [List.length_take]
      omega
    intro hnil
    rw [hnil] at this
    simp at this
    omega
  · rw [List.length_drop]
    omega
  · exact fun c hc => hpaddig c (List.take_subset _ _ hc)
  · exact fun c hc => hpaddig c (List.drop_subset _ _ hc)
  · have hsplit := List.take_append_drop
      ((List.replicate (e + 1 - (natChars m.natAbs).length) '0'
        ++ natChars m.natAbs).length - e)
      (List.replicate (e + 1 - (natChars m.natAbs).length) '0' ++ natChars m.natAbs)
    have hlen2 : ((List.replicate (e + 1 - (natChars m.natAbs).length) '0'
        ++ natChars m.natAbs).drop ((List.replicate (e + 1 - (natChars m.natAbs).length) '0'
        ++ natChars m.natAbs).length - e)).length = e := by
      rw [List.length_drop]
      omega
    calc _ = digitsVal ((List.replicate (e + 1 - (natChars m.natAbs).length) '0'
          ++ natChars m.natAbs).take ((List.replicate (e + 1 - (natChars m.natAbs).length) '0'
          ++ natChars m.natAbs).length - e)
          ++ (List.replicate (e + 1 - (natChars m.natAbs).length) '0'
          ++ natChars m.natAbs).drop ((List.replicate (e + 1 - (natChars m.natAbs).length) '0'
          ++ natChars m.natAbs).length - e)) := by
            rw [digitsVal_append, hlen2]
      _ = m.natAbs := by rw [hsplit, hpadval]

/-- `parseNum` inverts the printing of any well-formed number, whenever
the remainder cannot extend it. -/
theorem parseNum_numChars (v : JNum) (hwf : wfNum v = true) (rest : List Char)
    (hstop : numStop rest = true) :
    parseNum (numChars v ++ rest) = some (v, rest) := by
  cases v with
  | int n =>
      by_cases hneg : n < 0
      · have harg : numChars (.int n) ++ rest = '-' :: (natChars n.natAbs ++ rest) := by
          simp [numChars, intChars, hneg]
        rw [harg]
        show (match parsePosNum (natChars n.natAbs ++ rest) with
              | some (v, r) => some (negNum v, r)
              | none => none) = some (JNum.int n, rest)
        rw [parsePosNum_run (natChars n.natAbs) rest (natChars_ne_nil _)
              (natChars_digits _) hstop, digitsVal_natChars]
        show some (JNum.int (-(n.natAbs : Int)), rest) = some (JNum.int n, rest)
        have hn : -(n.natAbs : Int) = n := by omega
        rw [hn]
      · obtain ⟨c, t, hct⟩ := List.exists_cons_of_ne_nil (natChars_ne_nil n.natAbs)
        have hcd : isDigitCh c = true := natChars_digits n.natAbs c (hct ▸ List.mem_cons_self c t)
        have hcm : ¬ c = '-' := by
          intro hc
          rw [hc] at hcd
          exact absurd hcd (by decide)
        have harg : numChars (.int n) ++ rest = c :: (t ++ rest) := by
          simp [numChars, intChars, hneg, hct]
        have hback : c :: (t ++ rest) = natChars n.natAbs ++ rest := by rw [hct]; rfl
        rw [harg, show parseNum (c :: (t ++ rest)) = parsePosNum (c :: (t ++ rest)) from by
              simp [parseNum, hcm],
            hback, parsePosNum_run (natChars n.natAbs) rest (natChars_ne_nil _)
              (natChars_digits _) hstop, digitsVal_natChars]
        have hn : (n.natAbs : Int) = n := by omega
        rw [hn]
  | float m e =>
      obtain ⟨ds1, ds2, hfc, h1, hlen, hd1, hd2, hval⟩ := floatChars_decomp m e
      have he1 : 1 ≤ e := by
        simp only [wfNum] at hwf
        exact of_decide_eq_true hwf
      have h2 : ds2 ≠ [] := by
        intro h0
        rw [h0] at hlen
        simp at hlen
        omega
      have hpos := parsePosNum_point ds1 ds2 rest h1 hd1 h2 hd2 hstop
      by_cases hneg : m < 0
      · have harg : numChars (.float m e) ++ rest = '-' :: (ds1 ++ '.' :: (ds2 ++ rest)) := by
          rw [numChars, hfc, if_pos hneg]
          simp
        rw [harg]
        show (match parsePosNum (ds1 ++ '.' :: (ds2 ++ rest)) with
              | some (v, r) => some (negNum v, r)
              | none => none) = some (JNum.float m e, rest)
        rw [hpos]
        show some (JNum.float
            (-((digitsVal ds1 * 10 ^ ds2.length + digitsVal ds2 : Nat) : Int))
            ds2.length, rest) = some (JNum.float m e, rest)
        rw [hlen, hval]
        have hm : -(m.natAbs : Int) = m := by omega
        rw [hm]
      · obtain ⟨c, t, hct⟩ := List.exists_cons_of_ne_nil h1
        have hcd : isDigitCh c = true := hd1 c (hct ▸ List.mem_cons_self c t)
        have hcm : ¬ c = '-' := by
          intro hc
          rw [hc] at hcd
          exact absurd hcd (by decide)
        have harg : numChars (.float m e) ++ rest = c :: (t ++ '.' :: (ds2 ++ rest)) := by
          rw [numChars, hfc, if_neg hneg, hct]
          simp
        have hback : c :: (t ++ '.' :: (ds2 ++ rest)) = ds1 ++ '.' :: (ds2 ++ rest) := by
          rw [hct]
          rfl
        rw [harg, show parseNum (c :: (t ++ '.' :: (ds2 ++ rest)))
              = parsePosNum (c :: (t ++ '.' :: (ds2 ++ rest))) from by simp [parseNum, hcm],
            hback, hpos, hlen, hval]
        have hm : (m.natAbs : Int) = m := by omega
        rw [hm]

/-! ### Strings, whitespace, and head characters -/

/-- A well-formed character is not a double quote. -/
theorem wfChar_ne_quote {c : Char} (h : wfChar c = true) : ¬ c = '"' := by
  intro hc
  rw [hc] at h
  exact absurd h (by decide)

/-- Reading a string body stops exactly at the closing quote. -/
theorem readStrBody_run : ∀ (body rest : List Char),
    (∀ c ∈ body, ¬ c = '"') →
    readStrBody (body ++ '"' :: rest) = some (body, rest) := by
  intro body
  induction body with
  | nil => intro rest _; simp [readStrBody]
  | cons c t ih =>
      intro rest h
      have hc : ¬ c = '"' := h c (List.mem_cons_self c t)
      have ht := ih rest (fun x hx => h x (List.mem_cons_of_mem c hx))
      simp [readStrBody, hc, ht]

/-- `skipSpace` drops a whitespace head. -/
theorem skipSpace_space {c : Char} (h : isSpaceCh c = true) (cs : List Char) :
    skipSpace (c :: cs) = skipSpace cs := by
  simp [skipSpace, h]

/-- `skipSpace` is the identity on a non-whitespace head. -/
theorem skipSpace_not {c : Char} (h : isSpaceCh c = false) (cs : List Char) :
    skipSpace (c :: cs) = c :: cs := by
  simp [skipSpace, h]

/-- `skipSpace` absorbs an indentation run. -/
theorem skipSpace_pad (n : Nat) (cs : List Char) :
    skipSpace (pad n ++ cs) = skipSpace cs := by
  induction n with
  | zero => rfl
  | succ k ih =>
      show skipSpace (List.replicate (k+1) ' ' ++ cs) = skipSpace cs
      rw [List.replicate_succ, List.cons_append, skipSpace_space (by decide)]
      exact ih

/-- Dropping whitespace twice is dropping it once. -/
theorem skipSpace_idem (cs : List Char) :
    skipSpace (skipSpace cs) = skipSpace cs := by
  induction cs with
  | nil => rfl
  | cons c t ih =>
      cases h : isSpaceCh c
      · rw [skipSpace_not h, skipSpace_not h]
      · rw [skipSpace_space h]
        exact ih

/-- The value reader ignores a whitespace head. -/
theorem parseVal_space {c : Char} (h : isSpaceCh c = true) (fuel : Nat) (cs : List Char) :
    parseVal fuel (c :: cs) = parseVal fuel cs := by
  cases fuel with
  | zero => rfl
  | succ f =>
      simp only [parseVal]
      rw [skipSpace_space h]

/-- The value reader ignores leading indentation. -/
theorem parseVal_pad (n fuel : Nat) (cs : List Char) :
    parseVal fuel (pad n ++ cs) = parseVal fuel cs := by
  cases fuel with
  | zero => rfl
  | succ f =>
      simp only [parseVal]
      rw [skipSpace_pad]

/-- The item reader ignores a whitespace head. -/
theorem parseItems_space {c : Char} (h : isSpaceCh c = true) (fuel : Nat) (cs : List Char) :
    parseItems fuel (c :: cs) = parseItems fuel cs := by
  cases fuel with
  | zero => rfl
  | succ f =>
      simp only [parseItems]
      rw [parseVal_space h]

/-- The item reader ignores leading indentation. -/
theorem parseItems_pad (n fuel : Nat) (cs : List Char) :
    parseItems fuel (pad n ++ cs) = parseItems fuel cs := by
  cases fuel with
  | zero => rfl
  | succ f =>
      simp only [parseItems]
      rw [parseVal_pad]

/-- The member reader ignores a whitespace head. -/
theorem parseFields_space {c : Char} (h : isSpaceCh c = true) (fuel : Nat) (cs : List Char) :
    parseFields fuel (c :: cs) = parseFields fuel cs := by
  cases fuel with
  | zero => rfl
  | succ f =>
      simp only [parseFields]
      rw [skipSpace_space h]

/-- The member reader ignores leading indentation. -/
theorem parseFields_pad (n fuel : Nat) (cs : List Char) :
    parseFields fuel (pad n ++ cs) = parseFields fuel cs := by
  cases fuel with
  | zero => rfl
  | succ f =>
      simp only [parseFields]
      rw [skipSpace_pad]

/-- A digit is none of the dispatch characters of the value reader. -/
theorem digit_no_specials {c : Char} (h : isDigitCh c = true) :
    isSpaceCh c = false ∧ ¬ c = ']' ∧ ¬ c = '"' ∧ ¬ c = '[' ∧ ¬ c = lcurly
      ∧ ¬ c = 't' ∧ ¬ c = 'f' ∧ ¬ c = '-' := by
  refine ⟨?_, ?_, ?_, ?_, ?_, ?_, ?_, ?_⟩
  · cases hsp : isSpaceCh c
    · rfl
    · exfalso
      simp only [isSpaceCh, Bool.or_eq_true, decide_eq_true_eq] at hsp
      rcases hsp with hc | hc <;> rw [hc] at h
      · exact absurd h (by decide)
      · exact absurd h (by decide)
  all_goals (intro hc; rw [hc] at h; exact absurd h (by decide))

/-- A printed number starts with a minus sign or a digit. -/
theorem numChars_head (v : JNum) :
    ∃ c t, numChars v = c :: t ∧ (c = '-' ∨ isDigitCh c = true) := by
  cases v with
  | int n =>
      by_cases hneg : n < 0
      · exact ⟨'-', natChars n.natAbs, by simp [numChars, intChars, hneg], Or.inl rfl⟩
      · obtain ⟨c, t, hct⟩ := List.exists_cons_of_ne_nil (natChars_ne_nil n.natAbs)
        exact ⟨c, t, by simp [numChars, intChars, hneg, hct],
          Or.inr (natChars_digits n.natAbs c (hct ▸ List.mem_cons_self c t))⟩
  | float m e =>
      obtain ⟨ds1, ds2, hfc, h1, _, hd1, _, _⟩ := floatChars_decomp m e
      obtain ⟨c, t, hct⟩ := List.exists_cons_of_ne_nil h1
      by_cases hneg : m < 0
      · refine ⟨'-', ds1 ++ '.' :: ds2, ?_, Or.inl rfl⟩
        rw [numChars, hfc, if_pos hneg]
        rfl
      · refine ⟨c, t ++ '.' :: ds2, ?_, Or.inr (hd1 c (hct ▸ List.mem_cons_self c t))⟩
        rw [numChars, hfc, if_neg hneg, hct]
        rfl

/-- Every rendered value starts with a character that is neither
whitespace nor a closing bracket. -/
theorem dumpVal_head (ind : Nat) (j : Json) :
    ∃ c t, dumpVal ind j = c :: t ∧ isSpaceCh c = false ∧ ¬ c = ']' := by
  cases j with
  | str s =>
      exact ⟨'"', s.data ++ ['"'], by simp [dumpVal, quoteChars], by decide, by decide⟩
  | num v =>
      obtain ⟨c, t, hct, hc⟩ := numChars_head v
      rcases hc with rfl | hd
      · exact ⟨'-', t, by simp [dumpVal, hct], by decide, by decide⟩
      · obtain ⟨hsp, hbr, _⟩ := digit_no_specials hd
        exact ⟨c, t, by simp [dumpVal, hct], hsp, hbr⟩
  | bool b =>
      cases b
      · exact ⟨'f', ['a', 'l', 's', 'e'], by simp [dumpVal], by decide, by decide⟩
      · exact ⟨'t', ['r', 'u', 'e'], by simp [dumpVal], by decide, by decide⟩
  | arr xs =>
      cases xs with
      | nil => exact ⟨'[', [']'], by simp [dumpVal], by decide, by decide⟩
      | cons x l =>
          exact ⟨'[', '\n' :: (dumpItems (ind + 2) x l ++ '\n' :: (pad ind ++ [']'])),
            by simp [dumpVal], by decide, by decide⟩
  | obj fs =>
      cases fs with
      | nil => exact ⟨lcurly, [rcurly], by simp [dumpVal], by decide, by decide⟩
      | cons f l =>
          exact ⟨lcurly, '\n' :: (dumpFields (ind + 2) f l ++ '\n' :: (pad ind ++ [rcurly])),
            by simp [dumpVal], by decide, by decide⟩

/-! ### The value reader on rendered leaves -/

/-- Reading back a rendered string. -/
theorem parseVal_str (s : String) (hs : wfStr s = true) (fuel : Nat) (rest : List Char) :
    parseVal (fuel + 1) (quoteChars s ++ rest) = some (.str s, rest) := by
  have hbody : readStrBody (s.data ++ '"' :: rest) = some (s.data, rest) :=
    readStrBody_run s.data rest
      (fun c hc => wfChar_ne_quote (by
        rw [wfStr] at hs
        exact List.all_eq_true.mp hs c hc))
  rw [show quoteChars s ++ rest = '"' :: (s.data ++ '"' :: rest) from by simp [quoteChars]]
  simp only [parseVal]
  rw [skipSpace_not (by decide)]
  simp [hbody]

/-- Reading back a rendered boolean. -/
theorem parseVal_bool (b : Bool) (ind fuel : Nat) (rest : List Char) :
    parseVal (fuel + 1) (dumpVal ind (.bool b) ++ rest) = some (.bool b, rest) := by
  have hf : ¬ ('f' = lcurly) := by decide
  have ht : ¬ ('t' = lcurly) := by decide
  cases b
  · rw [show dumpVal ind (.bool false) ++ rest = 'f' :: ('a' :: ('l' :: ('s' :: ('e' :: rest))))
        from by simp [dumpVal]]
    simp only [parseVal]
    rw [skipSpace_not (by decide)]
    simp [hf]
  · rw [show dumpVal ind (.bool true) ++ rest = 't' :: ('r' :: ('u' :: ('e' :: rest)))
        from by simp [dumpVal]]
    simp only [parseVal]
    rw [skipSpace_not (by decide)]
    simp [ht]

/-- Reading back a rendered number. -/
theorem parseVal_numLeaf (v : JNum) (hwf : wfNum v = true) (ind fuel : Nat)
    (rest : List Char) (hstop : numStop rest = true) :
    parseVal (fuel + 1) (dumpVal ind (.num v) ++ rest) = some (.num v, rest) := by
  obtain ⟨c, t, hct, hc⟩ := numChars_head v
  have hparse : parseNum (c :: (t ++ rest)) = some (v, rest) := by
    rw [show c :: (t ++ rest) = numChars v ++ rest from by rw [hct]; rfl]
    exact parseNum_numChars v hwf rest hstop
  have hfacts : isSpaceCh c = false ∧ ¬ c = '"' ∧ ¬ c = '[' ∧ ¬ c = lcurly
      ∧ ¬ c = 't' ∧ ¬ c = 'f' := by
    rcases hc with rfl | hd
    · exact ⟨by decide, by decide, by decide, by decide, by decide, by decide⟩
    · obtain ⟨hsp, _, hq, hbk, hbc, ht, hf, _⟩ := digit_no_specials hd
      exact ⟨hsp, hq, hbk, hbc, ht, hf⟩
  obtain ⟨hsp, hq, hbk, hbc, ht', hf'⟩ := hfacts
  have hnum : (decide (c = '-') || isDigitCh c) = true := by
    rcases hc with rfl | hd
    · simp
    · simp [hd]
  rw [show dumpVal ind (.num v) ++ rest = c :: (t ++ rest) from by simp [dumpVal, hct]]
  simp only [parseVal]
  rw [skipSpace_not hsp]
  simp [hq, hbk, hbc, ht', hf', hnum, hparse]

/-- Reading back a rendered empty list. -/
theorem parseVal_arrNil (ind fuel : Nat) (rest : List Char) :
    parseVal (fuel + 1) (dumpVal ind (.arr []) ++ rest) = some (.arr [], rest) := by
  rw [show dumpVal ind (.arr []) ++ rest = '[' :: (']' :: rest) from by simp [dumpVal]]
  simp only [parseVal]
  rw [skipSpace_not (by decide)]
  simp [skipSpace_not (by decide : isSpaceCh ']' = false)]

/-- Reading back a rendered empty dictionary. -/
theorem parseVal_objNil (ind fuel : Nat) (rest : List Char) :
    parseVal (fuel + 1) (dumpVal ind (.obj []) ++ rest) = some (.obj [], rest) := by
  rw [show dumpVal ind (.obj []) ++ rest = lcurly :: (rcurly :: rest) from by simp [dumpVal]]
  simp only [parseVal]
  rw [skipSpace_not (by decide)]
  have h1 : ¬ (lcurly = '"') := by decide
  have h2 : ¬ (lcurly = '[') := by decide
  simp [skipSpace_not (by decide : isSpaceCh rcurly = false), h1, h2]

/-! ### Rendered composites, decomposed for the reader -/

/-- A rendered nonempty item block, fully right-associated. -/
theorem dumpItems_eqX (ind : Nat) (x : Json) (xs : List Json) (X : List Char) :
    dumpItems ind x xs ++ X
      = pad ind ++ (dumpVal ind x ++ (itemsSep ind xs ++ X)) := by
  cases xs <;> simp [dumpItems, itemsSep, List.append_assoc]

/-- A rendered nonempty member block, fully right-associated. -/
theorem dumpFields_eqX (ind : Nat) (k : String) (v : Json)
    (fs : List (String × Json)) (X : List Char) :
    dumpFields ind (k, v) fs ++ X
      = pad ind ++ ('"' :: (k.data ++ ('"' :: (':' :: (' ' :: (dumpVal ind v
          ++ (fieldsSep ind fs ++ X))))))) := by
  cases fs <;> simp [dumpFields, fieldsSep, quoteChars, List.append_assoc]

/-- A remainder headed by a non-digit, non-point character stops a number. -/
theorem numStop_cons (c : Char) (h : (isDigitCh c || decide (c = '.')) = false)
    (X : List Char) : numStop (c :: X) = true := by
  simp [numStop, Bool.or_eq_false_iff] at h ⊢
  exact h

/-! ### The round trip of the value reader over the printer -/

mutual

/-- Reading back any rendered well-formed value recovers it exactly. -/
theorem rtVal : ∀ (j : Json) (ind fuel : Nat) (rest : List Char),
    wfJson j = true → fsize j ≤ fuel → numStop rest = true →
    parseVal fuel (dumpVal ind j ++ rest) = some (j, rest)
  | .str s, ind, fuel, rest, hwf, hfu, _ => by
      have h1 : 1 ≤ fuel := by simp only [fsize] at hfu; omega
      cases fuel with
      | zero => exact absurd h1 (by omega)
      | succ f =>
          rw [show dumpVal ind (.str s) = quoteChars s from by simp [dumpVal]]
          exact parseVal_str s (by simpa [wfJson] using hwf) f rest
  | .num v, ind, fuel, rest, hwf, hfu, hstop => by
      have h1 : 1 ≤ fuel := by simp only [fsize] at hfu; omega
      cases fuel with
      | zero => exact absurd h1 (by omega)
      | succ f => exact parseVal_numLeaf v (by simpa [wfJson] using hwf) ind f rest hstop
  | .bool b, ind, fuel, rest, _, hfu, _ => by
      have h1 : 1 ≤ fuel := by simp only [fsize] at hfu; omega
      cases fuel with
      | zero => exact absurd h1 (by omega)
      | succ f => exact parseVal_bool b ind f rest
  | .arr [], ind, fuel, rest, _, hfu, _ => by
      have h1 : 1 ≤ fuel := by simp only [fsize] at hfu; omega
      cases fuel with
      | zero => exact absurd h1 (by omega)
      | succ f => exact parseVal_arrNil ind f rest
  | .obj [], ind, fuel, rest, _, hfu, _ => by
      have h1 : 1 ≤ fuel := by simp only [fsize] at hfu; omega
      cases fuel with
      | zero => exact absurd h1 (by omega)
      | succ f => exact parseVal_objNil ind f rest
  | .arr (x :: xs), ind, fuel, rest, hwf, hfu, _ => by
      have hsz : 1 + lsizeItems x xs ≤ fuel := by simpa [fsize] using hfu
      cases fuel with
      | zero => exact absurd hsz (by omega)
      | succ f =>
          have hwf2 : wfJson x = true ∧ wfList xs = true := by
            simpa [wfJson, wfList] using hwf
          have hitems := rtItems x xs (ind + 2) ind f rest hwf2.1 hwf2.2 (by omega)
          obtain ⟨ch, ct, hhead, hhsp, hhbr⟩ := dumpVal_head (ind + 2) x
          have harg : dumpVal ind (.arr (x :: xs)) ++ rest
              = '[' :: ('\n' :: (dumpItems (ind + 2) x xs
                  ++ ('\n' :: (pad ind ++ (']' :: rest))))) := by
            simp [dumpVal, List.append_assoc]
          have hskip : skipSpace ('\n' :: (pad (ind + 2) ++ (dumpVal (ind + 2) x
              ++ (itemsSep (ind + 2) xs ++ ('\n' :: (pad ind ++ (']' :: rest)))))))
              = ch :: (ct ++ (itemsSep (ind + 2) xs
                  ++ ('\n' :: (pad ind ++ (']' :: rest))))) := by
            rw [skipSpace_space (by decide), skipSpace_pad, hhead, List.cons_append,
                skipSpace_not hhsp]
          have hpi : parseItems f (ch :: (ct ++ (itemsSep (ind + 2) xs
              ++ ('\n' :: (pad ind ++ (']' :: rest))))))
              = some (x :: xs, rest) := by
            rw [← List.cons_append, ← hhead]
            exact hitems
          rw [harg, dumpItems_eqX]
          simp only [parseVal]
          rw [skipSpace_not (by decide)]
          simp [hskip, hhbr, hpi]
  | .obj ((k, v) :: fs), ind, fuel, rest, hwf, hfu, _ => by
      have hsz : 1 + lsizeFields (k, v) fs ≤ fuel := by simpa [fsize] using hfu
      cases fuel with
      | zero => exact absurd hsz (by omega)
      | succ f =>
          have hwf2 : wfStr k = true ∧ wfJson v = true ∧ wfFields fs = true := by
            simpa [wfJson, wfFields, Bool.and_assoc] using hwf
          have hflds := rtFields k v fs (ind + 2) ind f rest hwf2.1 hwf2.2.1 hwf2.2.2
            (by omega)
          have hq1 : ¬ (lcurly = '"') := by decide
          have hq2 : ¬ (lcurly = '[') := by decide
          have hq3 : ¬ ('"' = rcurly) := by decide
          have harg : dumpVal ind (.obj ((k, v) :: fs)) ++ rest
              = lcurly :: ('\n' :: (dumpFields (ind + 2) (k, v) fs
                  ++ ('\n' :: (pad ind ++ (rcurly :: rest))))) := by
            simp [dumpVal, List.append_assoc]
          have hskip : skipSpace ('\n' :: (pad (ind + 2) ++ ('"' :: (k.data
              ++ ('"' :: (':' :: (' ' :: (dumpVal (ind + 2) v
                  ++ (fieldsSep (ind + 2) fs
                      ++ ('\n' :: (pad ind ++ (rcurly :: rest))))))))))))
              = '"' :: (k.data ++ ('"' :: (':' :: (' ' :: (dumpVal (ind + 2) v
                  ++ (fieldsSep (ind + 2) fs
                      ++ ('\n' :: (pad ind ++ (rcurly :: rest))))))))) := by
            rw [skipSpace_space (by decide), skipSpace_pad, skipSpace_not (by decide)]
          rw [harg, dumpFields_eqX]
          simp only [parseVal]
          rw [skipSpace_not (by decide)]
          simp [hskip, hq1, hq2, hq3, hflds]
  termination_by j _ _ _ _ _ _ => sizeOf j

/-- Reading back a rendered item block recovers the items. -/
theorem rtItems : ∀ (x : Json) (xs : List Json) (ind m fuel : Nat) (rest : List Char),
    wfJson x = true → wfList xs = true → lsizeItems x xs ≤ fuel →
    parseItems fuel (dumpVal ind x ++ (itemsSep ind xs
        ++ ('\n' :: (pad m ++ (']' :: rest))))) = some (x :: xs, rest)
  | x, [], ind, m, fuel, rest, hwfx, _, hfu => by
      have h1 : 1 + fsize x ≤ fuel := by simpa [lsizeItems] using hfu
      cases fuel with
      | zero => exact absurd h1 (by omega)
      | succ f =>
          have hx := rtVal x ind f ('\n' :: (pad m ++ (']' :: rest))) hwfx (by omega)
            (numStop_cons '\n' (by decide) _)
          have hskip : skipSpace ('\n' :: (pad m ++ (']' :: rest))) = ']' :: rest := by
            rw [skipSpace_space (by decide), skipSpace_pad, skipSpace_not (by decide)]
          have hcm : ¬ (']' = ',') := by decide
          simp only [itemsSep, List.nil_append]
          simp only [parseItems]
          simp [hx, hskip, hcm]
  | x, y :: ys, ind, m, fuel, rest, hwfx, hwfl, hfu => by
      have h1 : 1 + fsize x + lsizeItems y ys ≤ fuel := by simpa [lsizeItems] using hfu
      cases fuel with
      | zero => exact absurd h1 (by omega)
      | succ f =>
          have hwf2 : wfJson y = true ∧ wfList ys = true := by
            simpa [wfList] using hwfl
          have hx := rtVal x ind f (',' :: ('\n' :: (dumpItems ind y ys
              ++ ('\n' :: (pad m ++ (']' :: rest)))))) hwfx (by omega)
            (numStop_cons ',' (by decide) _)
          have hP : parseItems f ('\n' :: (dumpItems ind y ys
              ++ ('\n' :: (pad m ++ (']' :: rest)))))
              = some (y :: ys, rest) := by
            rw [parseItems_space (by decide), dumpItems_eqX, parseItems_pad]
            exact rtItems y ys ind m f rest hwf2.1 hwf2.2 (by omega)
          have hskip : skipSpace (',' :: ('\n' :: (dumpItems ind y ys
              ++ ('\n' :: (pad m ++ (']' :: rest))))))
              = ',' :: ('\n' :: (dumpItems ind y ys
                  ++ ('\n' :: (pad m ++ (']' :: rest))))) :=
            skipSpace_not (by decide) _
          simp only [itemsSep]
          simp only [parseItems]
          simp [hx, hskip, hP, List.append_assoc]
  termination_by x xs _ _ _ _ _ _ _ => sizeOf x + sizeOf xs

/-- Reading back a rendered member block recovers the members. -/
theorem rtFields : ∀ (k : String) (v : Json) (fs : List (String × Json))
    (ind m fuel : Nat) (rest : List Char),
    wfStr k = true → wfJson v = true → wfFields fs = true →
    lsizeFields (k, v) fs ≤ fuel →
    parseFields fuel ('"' :: (k.data ++ ('"' :: (':' :: (' ' :: (dumpVal ind v
        ++ (fieldsSep ind fs ++ ('\n' :: (pad m ++ (rcurly :: rest))))))))))
      = some ((k, v) :: fs, rest)
  | k, v, [], ind, m, fuel, rest, hwfk, hwfv, _, hfu => by
      have h1 : 1 + fsize v ≤ fuel := by simpa [lsizeFields] using hfu
      cases fuel with
      | zero => exact absurd h1 (by omega)
      | succ f =>
          have hkey : readStrBody (k.data ++ '"' :: (':' :: (' ' :: (dumpVal ind v
              ++ (fieldsSep ind [] ++ ('\n' :: (pad m ++ (rcurly :: rest))))))))
              = some (k.data, ':' :: (' ' :: (dumpVal ind v
              ++ (fieldsSep ind [] ++ ('\n' :: (pad m ++ (rcurly :: rest))))))) :=
            readStrBody_run k.data _ (fun c hc => wfChar_ne_quote
              (List.all_eq_true.mp hwfk c hc))
          have hv2 : parseVal f (' ' :: (dumpVal ind v
              ++ (fieldsSep ind [] ++ ('\n' :: (pad m ++ (rcurly :: rest))))))
              = some (v, '\n' :: (pad m ++ (rcurly :: rest))) := by
            rw [parseVal_space (by decide)]
            simp only [fieldsSep, List.nil_append]
            exact rtVal v ind f ('\n' :: (pad m ++ (rcurly :: rest))) hwfv (by omega)
              (numStop_cons '\n' (by decide) _)
          have hskip : skipSpace ('\n' :: (pad m ++ (rcurly :: rest)))
              = rcurly :: rest := by
            rw [skipSpace_space (by decide), skipSpace_pad, skipSpace_not (by decide)]
          have hrc : ¬ (rcurly = ',') := by decide
          have hsc : ∀ X : List Char, skipSpace (':' :: X) = ':' :: X :=
            fun X => skipSpace_not (by decide) X
          have heta : ∀ s : String, String.mk s.data = s := fun _ => rfl
          simp only [parseFields]
          rw [skipSpace_not (by decide)]
          simp [hkey, hv2, hskip, hrc, hsc, heta]
  | k, v, (k2, v2) :: gs, ind, m, fuel, rest, hwfk, hwfv, hwff, hfu => by
      have h1 : 1 + fsize v + lsizeFields (k2, v2) gs ≤ fuel := by
        simpa [lsizeFields] using hfu
      cases fuel with
      | zero => exact absurd h1 (by omega)
      | succ f =>
          have hwf2 : wfStr k2 = true ∧ wfJson v2 = true ∧ wfFields gs = true := by
            simpa [wfFields, Bool.and_assoc] using hwff
          have hkey : readStrBody (k.data ++ '"' :: (':' :: (' ' :: (dumpVal ind v
              ++ (fieldsSep ind ((k2, v2) :: gs)
                  ++ ('\n' :: (pad m ++ (rcurly :: rest))))))))
              = some (k.data, ':' :: (' ' :: (dumpVal ind v
              ++ (fieldsSep ind ((k2, v2) :: gs)
                  ++ ('\n' :: (pad m ++ (rcurly :: rest))))))) :=
            readStrBody_run k.data _ (fun c hc => wfChar_ne_quote
              (List.all_eq_true.mp hwfk c hc))
          have hv2 : parseVal f (' ' :: (dumpVal ind v
              ++ (fieldsSep ind ((k2, v2) :: gs)
                  ++ ('\n' :: (pad m ++ (rcurly :: rest))))))
              = some (v, ',' :: ('\n' :: (dumpFields ind (k2, v2) gs
                  ++ ('\n' :: (pad m ++ (rcurly :: rest)))))) := by
            rw [parseVal_space (by decide)]
            rw [show fieldsSep ind ((k2, v2) :: gs) ++ ('\n' :: (pad m ++ (rcurly :: rest)))
                  = ',' :: ('\n' :: (dumpFields ind (k2, v2) gs
                      ++ ('\n' :: (pad m ++ (rcurly :: rest))))) from by
              simp [fieldsSep]]
            exact rtVal v ind f _ hwfv (by omega) (numStop_cons ',' (by decide) _)
          have hPF : parseFields f ('\n' :: (dumpFields ind (k2, v2) gs
              ++ ('\n' :: (pad m ++ (rcurly :: rest)))))
              = some ((k2, v2) :: gs, rest) := by
            rw [parseFields_space (by decide), dumpFields_eqX, parseFields_pad]
            exact rtFields k2 v2 gs ind m f rest hwf2.1 hwf2.2.1 hwf2.2.2 (by omega)
          have hskip : skipSpace (',' :: ('\n' :: (dumpFields ind (k2, v2) gs
              ++ ('\n' :: (pad m ++ (rcurly :: rest))))))
              = ',' :: ('\n' :: (dumpFields ind (k2, v2) gs
                  ++ ('\n' :: (pad m ++ (rcurly :: rest))))) :=
            skipSpace_not (by decide) _
          have hsc : ∀ X : List Char, skipSpace (':' :: X) = ':' :: X :=
            fun X => skipSpace_not (by decide) X
          have heta : ∀ s : String, String.mk s.data = s := fun _ => rfl
          simp only [parseFields]
          rw [skipSpace_not (by decide)]
          simp [hkey, hv2, hPF, hskip, hsc, heta]
  termination_by k v fs _ _ _ _ _ _ _ _ => sizeOf v + sizeOf fs
end

/-! ### The printed form is long enough to fuel the reader -/

mutual

/-- The fuel a value needs is at most its printed length. -/
theorem fsize_le : ∀ (j : Json) (ind : Nat), fsize j ≤ (dumpVal ind j).length
  | .str s, ind => by
      simp [fsize, dumpVal, quoteChars]
  | .num v, ind => by
      obtain ⟨c, t, hct, _⟩ := numChars_head v
      simp [fsize, dumpVal, hct]
  | .bool b, ind => by cases b <;> simp [fsize, dumpVal]
  | .arr [], ind => by simp [fsize, dumpVal]
  | .obj [], ind => by simp [fsize, dumpVal]
  | .arr (x :: xs), ind => by
      have h := itemsSize_le x xs (ind + 2)
      simp only [fsize, dumpVal, List.length_cons, List.length_append, pad,
        List.length_replicate, List.length_singleton]
      omega
  | .obj ((k, v) :: fs), ind => by
      have h := fieldsSize_le k v fs (ind + 2)
      simp only [fsize, dumpVal, List.length_cons, List.length_append, pad,
        List.length_replicate, List.length_singleton]
      omega
  termination_by j _ => sizeOf j

/-- The fuel an item block needs is at most its printed length plus one. -/
theorem itemsSize_le : ∀ (x : Json) (xs : List Json) (ind : Nat),
    lsizeItems x xs ≤ (dumpItems ind x xs).length + 1
  | x, [], ind => by
      have h := fsize_le x ind
      simp only [lsizeItems, dumpItems, List.length_append, pad, List.length_replicate]
      omega
  | x, y :: ys, ind => by
      have h1 := fsize_le x ind
      have h2 := itemsSize_le y ys ind
      simp only [lsizeItems, dumpItems, List.length_append, List.length_cons, pad,
        List.length_replicate]
      omega
  termination_by x xs _ => sizeOf x + sizeOf xs

/-- The fuel a member block needs is at most its printed length plus one. -/
theorem fieldsSize_le : ∀ (k : String) (v : Json) (fs : List (String × Json)) (ind : Nat),
    lsizeFields (k, v) fs ≤ (dumpFields ind (k, v) fs).length + 1
  | k, v, [], ind => by
      have h := fsize_le v ind
      simp only [lsizeFields, dumpFields, List.length_append, List.length_cons,
        quoteChars, pad, List.length_replicate]
      omega
  | k, v, (k2, v2) :: gs, ind => by
      have h1 := fsize_le v ind
      have h2 := fieldsSize_le k2 v2 gs ind
      simp only [lsizeFields, dumpFields, List.length_append, List.length_cons,
        quoteChars, pad, List.length_replicate]
      omega
  termination_by k v fs _ => sizeOf v + sizeOf fs
end

/-- `json.loads` inverts `json.dump(..., indent=2)` on every well-formed
value: the serialization is lossless. -/
theorem json_loads_dumps (j : Json) (hwf : wfJson j = true) :
    json_loads (json_dumps j) = some j := by
  have hfu : fsize j ≤ (dumpVal 0 j).length + 1 :=
    le_trans (fsize_le j 0) (by omega)
  have h := rtVal j 0 ((dumpVal 0 j).length + 1) [] hwf hfu rfl
  rw [List.append_nil] at h
  show (match parseVal ((dumpVal 0 j).length + 1) (dumpVal 0 j) with
        | some (jj, r) => if skipSpace r = [] then some jj else none
        | none => none) = some j
  rw [h]
  rfl

/-! ### Builder outputs are well-formed -/

/-- A rendered tag list is well-formed when its strings are. -/
theorem wfList_map_str (l : List String) (h : l.all wfStr = true) :
    wfList (l.map Json.str) = true := by
  induction l with
  | nil => simp [wfList]
  | cons s t ih =>
      rw [List.all_cons, Bool.and_eq_true] at h
      simp [wfList, wfJson, h.1, ih h.2]

/-- A rendered distribution dictionary is well-formed when its argument is. -/
theorem wfFields_dist (m : List (String × JNum)) (h : wfDist m = true) :
    wfFields (m.map (fun kv => (kv.1, Json.num kv.2))) = true := by
  induction m with
  | nil => simp [wfFields]
  | cons kv rest ih =>
      rw [wfDist, List.all_cons, Bool.and_eq_true, Bool.and_eq_true] at h
      have hr : wfDist rest = true := h.2
      simp [wfFields, wfJson, h.1.1, h.1.2, ih hr]

/-- Member well-formedness distributes over append. -/
theorem wfFields_append (l1 l2 : List (String × Json)) :
    wfFields (l1 ++ l2) = (wfFields l1 && wfFields l2) := by
  induction l1 with
  | nil => simp [wfFields]
  | cons f t ih =>
      obtain ⟨k, v⟩ := f
      simp [wfFields, ih, Bool.and_assoc]

/-- A gender-script builder output lies in the round-tripping fragment
whenever its arguments and the two clock readings do. -/
theorem wf_create_preset_gender (a : GenderPresets.Args) (clock : Nat → String)
    (t : Nat) (ha : GenderPresets.wfArgs a = true)
    (h1 : wfStr (clock t) = true) (h2 : wfStr (clock (t+1)) = true) :
    wfJson (GenderPresets.create_preset a clock t) = true := by
  rw [GenderPresets.wfArgs] at ha
  simp only [Bool.and_eq_true] at ha
  obtain ⟨⟨⟨⟨⟨⟨⟨⟨⟨⟨⟨⟨⟨⟨⟨⟨⟨⟨⟨⟨⟨⟨⟨hname, hdesc⟩, hlang⟩, hsyn⟩, hlyr⟩, htags⟩, hn1⟩, hn2⟩, hn3⟩, hn4⟩, hn5⟩, hn6⟩, hn7⟩, hn8⟩, hn9⟩, hn10⟩, hn11⟩, hn12⟩, hn13⟩, hn14⟩, hn15⟩, hn16⟩, hgb⟩, hvt⟩ := ha
  cases htr1 : truthy a.gender_balance <;> cases htr2 : truthy a.voice_types <;>
  · simp [GenderPresets.create_preset, wfJson, wfFields, wfList, wfFields_append,
      distToJson, htr1, htr2, hname, hdesc, hlang, hsyn, hlyr, h1, h2,
      wfList_map_str _ htags, wfFields_dist _ hgb, wfFields_dist _ hvt,
      hn1, hn2, hn3, hn4, hn5, hn6, hn7, hn8, hn9, hn10,
      hn11, hn12, hn13, hn14, hn15, hn16]
    try decide

/-- An additional-script builder output lies in the round-tripping fragment
whenever its arguments and the two clock readings do. -/
theorem wf_create_preset_additional (b : AdditionalPresets.Args) (clock : Nat → String)
    (t : Nat) (hb : AdditionalPresets.wfArgs b = true)
    (h1 : wfStr (clock t) = true) (h2 : wfStr (clock (t+1)) = true) :
    wfJson (AdditionalPresets.create_preset b clock t) = true := by
  rw [AdditionalPresets.wfArgs] at hb
  simp only [Bool.and_eq_true] at hb
  obtain ⟨⟨⟨⟨⟨⟨⟨⟨⟨⟨⟨⟨⟨⟨⟨⟨⟨⟨⟨⟨⟨hname, hdesc⟩, hlang⟩, hsyn⟩, hlyr⟩, htags⟩, hn1⟩, hn2⟩, hn3⟩, hn4⟩, hn5⟩, hn6⟩, hn7⟩, hn8⟩, hn9⟩, hn10⟩, hn11⟩, hn12⟩, hn13⟩, hn14⟩, hn15⟩, hn16⟩ := hb
  simp [AdditionalPresets.create_preset, wfJson, wfFields, wfList,
    hname, hdesc, hlang, hsyn, hlyr, h1, h2, wfList_map_str _ htags,
    hn1, hn2, hn3, hn4, hn5, hn6, hn7, hn8, hn9, hn10,
    hn11, hn12, hn13, hn14, hn15, hn16]
  try decide

/-- C4 (confirmed): serialization round-trips losslessly — for every record
either builder produces (arguments and clock readings in the escape-free
ASCII fragment the generator uses), encoding with `json.dump(..., indent=2)`
and decoding with `json.loads` yields the record back, equal in every
field, including the optional nested maps and the provenance flags. -/
theorem c4_serialization_roundtrip :
    (∀ (a : GenderPresets.Args) (clock : Nat → String) (t : Nat),
      GenderPresets.wfArgs a = true → wfStr (clock t) = true →
      wfStr (clock (t+1)) = true →
      json_loads (json_dumps (GenderPresets.create_preset a clock t))
        = some (GenderPresets.create_preset a clock t)) ∧
    (∀ (b : AdditionalPresets.Args) (clock : Nat → String) (t : Nat),
      AdditionalPresets.wfArgs b = true → wfStr (clock t) = true →
      wfStr (clock (t+1)) = true →
      json_loads (json_dumps (AdditionalPresets.create_preset b clock t))
        = some (AdditionalPresets.create_preset b clock t)) :=
  ⟨fun a clock t ha h1 h2 =>
      json_loads_dumps _ (wf_create_preset_gender a clock t ha h1 h2),
   fun b clock t hb h1 h2 =>
      json_loads_dumps _ (wf_create_preset_additional b clock t hb h1 h2)⟩

/-- C4 witness: the round trip on a concrete builder output. -/
theorem c4_witness :
    json_loads (json_dumps (GenderPresets.create_preset sampleArgs clockT 0))
      = some (GenderPresets.create_preset sampleArgs clockT 0) :=
  c4_serialization_roundtrip.1 sampleArgs clockT 0 (by decide) (by decide) (by decide)

end Choral
